import Mathlib

/-!
Shallow embedding of the StampedeShield real-time risk-fusion core
(`src/python/engine/surge_engine.py`, `src/python/engine/alert_manager.py`,
`src/python/processors/{passage_detector,zone_detector,device_tracker,cluster_detector}.py`)
together with proofs of the behavioural claims about it.

Real numbers of the Python code are modelled by `ℚ`; Python `int()`
truncation and `round(x, n)` (round-half-to-even) are modelled explicitly.
-/

/-- Python `int()` applied to a rational: truncation toward zero. -/
def pyInt (q : ℚ) : ℤ :=
  if 0 ≤ q then ⌊q⌋ else -⌊-q⌋

/-- Round a rational to the nearest integer, ties to even (Python `round`). -/
def roundHalfEven (q : ℚ) : ℤ :=
  let f := ⌊q⌋
  let r := q - f
  if r < 1/2 then f
  else if 1/2 < r then f + 1
  else if f % 2 = 0 then f else f + 1

/-- Python `round(q, n)` on rationals. -/
def pyRound (n : ℕ) (q : ℚ) : ℚ :=
  (roundHalfEven (q * 10 ^ n) : ℚ) / 10 ^ n

/-- Append to a `collections.deque` with `maxlen = n`: old elements fall off the left. -/
def appendBounded (n : ℕ) (l : List α) (a : α) : List α :=
  let l' := l ++ [a]
  if n < l'.length then l'.drop (l'.length - n) else l'

/-! ## SurgeEngine (`src/python/engine/surge_engine.py`) -/

/-- The 5-level system state of `SystemState` in `surge_engine.py`. -/
inductive SystemState
  | CLEAR
  | NORMAL
  | ELEVATED
  | CRITICAL
  | SURGE
deriving DecidableEq

/-- Numeric value of a state (`SystemState(Enum)` values 0..4). -/
def SystemState.value : SystemState → ℕ
  | .CLEAR => 0
  | .NORMAL => 1
  | .ELEVATED => 2
  | .CRITICAL => 3
  | .SURGE => 4

/-- The five risk-component weights of `RISK_WEIGHTS`. -/
structure RiskWeights where
  flow_imbalance : ℚ
  entry_velocity : ℚ
  cluster_density : ℚ
  zone_blockage : ℚ
  sound_level : ℚ
deriving DecidableEq

/-- Configuration of `SurgeEngine.__init__`. -/
structure SurgeConfig where
  ESCALATE_DELAY : ℚ
  DEESCALATE_DELAY : ℚ
  RISK_WEIGHTS : RiskWeights
deriving DecidableEq

/-- The `default_config` of `SurgeEngine.__init__`. -/
def defaultSurgeConfig : SurgeConfig :=
  ⟨3, 10, ⟨1/5, 1/5, 3/10, 1/5, 1/10⟩⟩

/-- One node's entry in the `sensor_data` dict: the keys the engine reads. -/
structure NodeReading where
  dist : Option ℚ
  sound : Option ℚ
deriving DecidableEq

/-- The `sensor_data` dict restricted to the node ids "A", "B", "C" the engine reads. -/
structure SensorData where
  A : Option NodeReading
  B : Option NodeReading
  C : Option NodeReading
deriving DecidableEq

/-- `sensor_data.get(node, {}).get("dist", 300)`. -/
def getDist (n : Option NodeReading) : ℚ :=
  match n with
  | none => 300
  | some r => r.dist.getD 300

/-- `sensor_data.get("C", {}).get("sound", 40)`. -/
def getSound (n : Option NodeReading) : ℚ :=
  match n with
  | none => 40
  | some r => r.sound.getD 40

/-- The sound-level component computed at lines 244-252 of `_calculate_components`. -/
def soundScore (sound : ℚ) : ℚ :=
  if sound > 85 then 1
  else if sound > 70 then (sound - 70) / 15
  else if sound > 55 then (sound - 55) / 30
  else 0

/-- The five component risks returned by `_calculate_components`. -/
structure Components where
  flow_imbalance : ℚ
  entry_velocity : ℚ
  cluster_density : ℚ
  zone_blockage : ℚ
  sound_level : ℚ
deriving DecidableEq

/-- `SurgeEngine._calculate_components` (the empty-dict guard returns all zeros). -/
def calcComponents (d : SensorData) : Components :=
  if d.A = none ∧ d.B = none ∧ d.C = none then ⟨0, 0, 0, 0, 0⟩
  else
    let entry_dist := getDist d.A
    let exit_dist := getDist d.C
    let entry_pressure := max 0 ((300 - entry_dist) / 300)
    let exit_flow := max 0 ((300 - exit_dist) / 300)
    let imbalance := if entry_pressure > 1/10 then max 0 (entry_pressure - exit_flow * (1/2)) else 0
    let corridor_dist := getDist d.B
    let avg_dist := (entry_dist + corridor_dist + exit_dist) / 3
    let velocity_score := max 0 ((300 - avg_dist) / 200)
    let min_dist := min (min entry_dist corridor_dist) exit_dist
    let cluster_score :=
      if min_dist < 50 then 1
      else if min_dist < 100 then 7/10
      else if min_dist < 150 then 2/5
      else max 0 ((200 - min_dist) / 200)
    let blocked_zones : ℚ :=
      (if getDist d.A < 80 then 1 else 0) + (if getDist d.B < 80 then 1 else 0) +
        (if getDist d.C < 80 then 1 else 0)
    ⟨min 1 imbalance, min 1 velocity_score, cluster_score, min 1 (blocked_zones / 2),
      soundScore (getSound d.C)⟩

/-- The clamped weighted risk score of `process_sensor_data` (lines 148-153). -/
def engineRisk (cfg : SurgeConfig) (d : SensorData) : ℚ :=
  let c := calcComponents d
  let w := cfg.RISK_WEIGHTS
  let raw := c.flow_imbalance * w.flow_imbalance + c.entry_velocity * w.entry_velocity +
    c.cluster_density * w.cluster_density + c.zone_blockage * w.zone_blockage +
    c.sound_level * w.sound_level
  max 0 (min 1 raw)

/-- `SurgeEngine._risk_to_state` with `STATE_THRESHOLDS = [0.15, 0.35, 0.55, 0.75]`. -/
def riskToState (risk : ℚ) : SystemState :=
  if risk ≥ 3/4 then .SURGE
  else if risk ≥ 11/20 then .CRITICAL
  else if risk ≥ 7/20 then .ELEVATED
  else if risk ≥ 3/20 then .NORMAL
  else .CLEAR

/-- The hysteresis-relevant state of a `SurgeEngine`: committed state plus
`pending_state` / `pending_start_time`. -/
structure HEngine where
  state : SystemState
  pending : Option SystemState
  pendingStart : Option ℚ
deriving DecidableEq

/-- `SurgeEngine._apply_hysteresis`, combined with the committed-state update done
by its caller `process_sensor_data` (lines 169-172). -/
def applyHysteresis (cfg : SurgeConfig) (e : HEngine) (target : SystemState)
    (timestamp : ℚ) : HEngine :=
  if target = e.state then { e with pending := none, pendingStart := none }
  else
    let requiredDelay :=
      if target.value > e.state.value then cfg.ESCALATE_DELAY else cfg.DEESCALATE_DELAY
    if some target ≠ e.pending then { e with pending := some target, pendingStart := some timestamp }
    else
      e.pendingStart.elim e (fun ps =>
        if timestamp - ps ≥ requiredDelay then ⟨target, none, none⟩ else e)

/-- The hysteresis fields set by `SurgeEngine.__init__` (no validation is performed). -/
def initEngine (_cfg : SurgeConfig) : HEngine :=
  ⟨.CLEAR, none, none⟩

/-- One `process_sensor_data` call, restricted to the state evolution:
component risks → weighted clamped risk → target state → hysteresis. -/
def processStep (cfg : SurgeConfig) (e : HEngine) (d : SensorData) (timestamp : ℚ) : HEngine :=
  applyHysteresis cfg e (riskToState (engineRisk cfg d)) timestamp

/-- A sequence of `process_sensor_data` calls. -/
def runEngine (cfg : SurgeConfig) (e : HEngine) (trace : List (SensorData × ℚ)) : HEngine :=
  trace.foldl (fun e p => processStep cfg e p.1 p.2) e

/-! ## PassageDetector (`src/python/processors/passage_detector.py`) -/

/-- The 4 states of `PassageState`. -/
inductive PassageState
  | BASELINE
  | APPROACH
  | PASSAGE
  | COOLDOWN
deriving DecidableEq

/-- Configuration of `PassageDetector.__init__` (durations in milliseconds). -/
structure PDConfig where
  PASSAGE_THRESHOLD : ℚ
  PRESENCE_THRESHOLD : ℚ
  MIN_PASSAGE_DURATION : ℚ
  PASSAGE_COOLDOWN : ℚ
  BASELINE_DISTANCE : ℚ
  RETURN_THRESHOLD : ℚ
  RETURN_DURATION : ℚ
deriving DecidableEq

/-- The `default_config` of `PassageDetector.__init__`. -/
def defaultPDConfig : PDConfig :=
  ⟨50, 150, 200, 800, 300, 150, 500⟩

/-- Mutable state of a `PassageDetector`. -/
structure PDState where
  state : PassageState
  stateEnterTime : ℚ
  passageCount : ℕ
  passageTimestamps : List ℚ
  lastDistance : ℚ
  closeStart : Option ℚ
  farStart : Option ℚ
  cooldownStart : Option ℚ
  totalApproaches : ℕ
  falseApproaches : ℕ
  minDistanceSeen : ℚ
deriving DecidableEq

/-- State set up by `PassageDetector.__init__` (no validation is performed). -/
def initPD (cfg : PDConfig) : PDState :=
  ⟨.BASELINE, 0, 0, [], cfg.BASELINE_DISTANCE, none, none, none, 0, 0, cfg.BASELINE_DISTANCE⟩

/-- `PassageDetector._change_state`. -/
def pdChangeState (s : PDState) (newState : PassageState) (tsMs : ℚ) : PDState :=
  { s with state := newState, stateEnterTime := tsMs, closeStart := none }

/-- `PassageDetector._register_passage`. -/
def pdRegisterPassage (cfg : PDConfig) (s : PDState) (tsMs : ℚ) : PDState :=
  { s with
    passageCount := s.passageCount + 1
    passageTimestamps := appendBounded 1000 s.passageTimestamps (tsMs / 1000)
    minDistanceSeen := cfg.BASELINE_DISTANCE }

/-- `PassageDetector._process_baseline`. -/
def pdProcessBaseline (cfg : PDConfig) (s : PDState) (distance tsMs : ℚ) : PDState :=
  if distance < cfg.PRESENCE_THRESHOLD then
    { pdChangeState s .APPROACH tsMs with totalApproaches := s.totalApproaches + 1 }
  else s

/-- `PassageDetector._process_approach`. -/
def pdProcessApproach (cfg : PDConfig) (s : PDState) (distance tsMs : ℚ) : PDState :=
  if distance < cfg.PASSAGE_THRESHOLD then
    let closeStart := s.closeStart.getD tsMs
    let s := { s with closeStart := some closeStart }
    if tsMs - closeStart ≥ cfg.MIN_PASSAGE_DURATION then
      pdChangeState (pdRegisterPassage cfg s tsMs) .PASSAGE tsMs
    else s
  else
    let s := { s with closeStart := none }
    if distance > cfg.RETURN_THRESHOLD then
      let farStart := s.farStart.getD tsMs
      let s := { s with farStart := some farStart }
      if tsMs - farStart ≥ cfg.RETURN_DURATION then
        { pdChangeState s .BASELINE tsMs with
          falseApproaches := s.falseApproaches + 1, farStart := none }
      else s
    else { s with farStart := none }

/-- `PassageDetector._process_passage`. -/
def pdProcessPassage (cfg : PDConfig) (s : PDState) (distance tsMs : ℚ) : PDState :=
  if distance > cfg.RETURN_THRESHOLD then
    let farStart := s.farStart.getD tsMs
    let s := { s with farStart := some farStart }
    if tsMs - farStart ≥ cfg.RETURN_DURATION then
      { pdChangeState s .COOLDOWN tsMs with cooldownStart := some tsMs, farStart := none }
    else s
  else { s with farStart := none }

/-- `PassageDetector._process_cooldown`. -/
def pdProcessCooldown (cfg : PDConfig) (s : PDState) (_distance tsMs : ℚ) : PDState :=
  match s.cooldownStart with
  | some cs =>
    if tsMs - cs ≥ cfg.PASSAGE_COOLDOWN then
      { pdChangeState s .BASELINE tsMs with cooldownStart := none }
    else s
  | none => s

/-- `PassageDetector.process_reading` (timestamp in seconds, converted to ms internally). -/
def pdProcessReading (cfg : PDConfig) (s : PDState) (distance timestamp : ℚ) : PDState :=
  let tsMs := timestamp * 1000
  let s := { s with
    minDistanceSeen := if distance < s.minDistanceSeen then distance else s.minDistanceSeen,
    lastDistance := distance }
  match s.state with
  | .BASELINE => pdProcessBaseline cfg s distance tsMs
  | .APPROACH => pdProcessApproach cfg s distance tsMs
  | .PASSAGE => pdProcessPassage cfg s distance tsMs
  | .COOLDOWN => pdProcessCooldown cfg s distance tsMs

/-- A sequence of `process_reading` calls, each a `(distance, timestamp)` pair. -/
def runPD (cfg : PDConfig) (s : PDState) (trace : List (ℚ × ℚ)) : PDState :=
  trace.foldl (fun s p => pdProcessReading cfg s p.1 p.2) s

/-! ## ZoneDetector (`src/python/processors/zone_detector.py`) -/

/-- The zone occupancy states of `ZoneState`. -/
inductive ZState
  | CLEAR
  | OCCUPIED
  | CROWDED
deriving DecidableEq

/-- Configuration of `ZoneDetector.__init__`. -/
structure ZDConfig where
  ZONE_CLEAR_DIST : ℚ
  ZONE_CROWDED_DIST : ℚ
  CLEAR_CONFIRM_TIME : ℚ
  CROWDED_CONFIRM_TIME : ℚ
deriving DecidableEq

/-- The `default_config` of `ZoneDetector.__init__`. -/
def defaultZDConfig : ZDConfig :=
  ⟨200, 80, 2, 1⟩

/-- Mutable state of a `ZoneDetector`. -/
structure ZDState where
  state : ZState
  stateStartTime : ℚ
  pending : Option ZState
  pendingStart : Option ℚ
  lastDistance : ℚ
  lastPir : ℕ
  lastTimestamp : ℚ
  pirTriggerCount : ℕ
  confirmedHumanCount : ℕ
deriving DecidableEq

/-- State set up by `ZoneDetector.__init__` (no validation is performed). -/
def initZD (_cfg : ZDConfig) : ZDState :=
  ⟨.CLEAR, 0, none, none, 400, 0, 0, 0, 0⟩

/-- `ZoneDetector._determine_target_state`. -/
def zdDetermineTarget (cfg : ZDConfig) (state : ZState) (distance : ℚ) (pir : ℕ) : ZState :=
  if distance < cfg.ZONE_CROWDED_DIST then .CROWDED
  else if distance < cfg.ZONE_CLEAR_DIST ∧ pir = 1 then .OCCUPIED
  else if distance ≥ cfg.ZONE_CLEAR_DIST then .CLEAR
  else if state = .CLEAR then .CLEAR
  else state

/-- Confirmation time per target state (the `confirm_times` dict in `_apply_confirmation`). -/
def zdConfirmTime (cfg : ZDConfig) : ZState → ℚ
  | .CLEAR => cfg.CLEAR_CONFIRM_TIME
  | .CROWDED => cfg.CROWDED_CONFIRM_TIME
  | .OCCUPIED => 0

/-- `ZoneDetector._apply_confirmation`: returns the new committed state together with
the updated `pending_state` / `pending_start_time`. -/
def zdApplyConfirmation (cfg : ZDConfig) (state : ZState) (pending : Option ZState)
    (pendingStart : Option ℚ) (target : ZState) (timestamp : ℚ) :
    ZState × Option ZState × Option ℚ :=
  if target = state then (state, none, none)
  else
    let requiredTime := zdConfirmTime cfg target
    if requiredTime = 0 then (target, none, none)
    else if some target ≠ pending then (state, some target, some timestamp)
    else
      match pendingStart with
      | some ps =>
        if timestamp - ps ≥ requiredTime then (target, none, none)
        else (state, pending, pendingStart)
      | none => (state, pending, pendingStart)

/-- `ZoneDetector.process_reading`. -/
def zdProcessReading (cfg : ZDConfig) (s : ZDState) (distance : ℚ) (pir : ℕ)
    (timestamp : ℚ) : ZDState :=
  let s := { s with pirTriggerCount := if pir = 1 then s.pirTriggerCount + 1 else s.pirTriggerCount }
  let previousState := s.state
  let target := zdDetermineTarget cfg s.state distance pir
  let res := zdApplyConfirmation cfg s.state s.pending s.pendingStart target timestamp
  let s := { s with pending := res.2.1, pendingStart := res.2.2 }
  let s := if res.1 ≠ previousState then
      { s with state := res.1, stateStartTime := timestamp }
    else s
  let confirmedHuman := pir = 1 ∧ s.state ≠ .CLEAR
  { s with
    confirmedHumanCount :=
      if confirmedHuman then s.confirmedHumanCount + 1 else s.confirmedHumanCount,
    lastDistance := distance, lastPir := pir, lastTimestamp := timestamp }

/-- A sequence of `process_reading` calls, each a `(distance, pir, timestamp)` triple. -/
def runZD (cfg : ZDConfig) (s : ZDState) (trace : List (ℚ × ℕ × ℚ)) : ZDState :=
  trace.foldl (fun s r => zdProcessReading cfg s r.1 r.2.1 r.2.2) s

/-! ## DeviceTracker (`src/python/processors/device_tracker.py`) -/

/-- Configuration fields of `DeviceTracker.__init__` used by `get_device_count`. -/
structure DTConfig where
  WIFI_MULTIPLIER : ℚ
  DEVICE_TIMEOUT : ℚ
deriving DecidableEq

/-- The relevant `default_config` entries of `DeviceTracker.__init__`. -/
def defaultDTConfig : DTConfig :=
  ⟨7/5, 30⟩

/-- One entry of `self.node_data`. -/
structure DTNodeData where
  count : ℕ
  timestamp : ℚ
deriving DecidableEq

/-- `DeviceTracker._get_active_nodes`: nodes whose data is younger than the timeout. -/
def activeNodes (cfg : DTConfig) (nodeData : List (String × DTNodeData)) (now : ℚ) :
    List (String × DTNodeData) :=
  nodeData.filter (fun p => decide (now - p.2.timestamp < cfg.DEVICE_TIMEOUT))

/-- `DeviceTracker.get_device_count`: max count as base, plus `0.3` times the sum of
the counts differing from the max, scaled by the Wi-Fi multiplier and truncated. -/
def getDeviceCount (cfg : DTConfig) (nodeData : List (String × DTNodeData)) (now : ℚ) : ℤ :=
  let counts := (activeNodes cfg nodeData now).map (fun p => (p.2.count : ℚ))
  match counts with
  | [] => 0
  | c :: rest =>
    let maxCount := rest.foldl max c
    let totalOthers := (counts.filter (fun x => decide (x ≠ maxCount))).sum
    let overlapFactor : ℚ := 3/10
    let estimated := maxCount + totalOthers * overlapFactor
    pyInt (estimated * cfg.WIFI_MULTIPLIER)

/-- Modelled from the spec sentence of claim C5: the non-maximal contribution is the
sum over every node other than ONE chosen maximum node (ties with the maximum
included), i.e. the total count minus a single copy of the maximum. -/
def specDeviceCount (cfg : DTConfig) (nodeData : List (String × DTNodeData)) (now : ℚ) : ℤ :=
  let counts := (activeNodes cfg nodeData now).map (fun p => (p.2.count : ℚ))
  match counts with
  | [] => 0
  | c :: rest =>
    let maxCount := rest.foldl max c
    let totalOthers := counts.sum - maxCount
    let overlapFactor : ℚ := 3/10
    pyInt ((maxCount + totalOthers * overlapFactor) * cfg.WIFI_MULTIPLIER)

/-! ## ClusterDetector (`src/python/processors/cluster_detector.py`) -/

/-- Configuration of `ClusterDetector.__init__`. -/
structure CDConfig where
  MIN_CLUSTER_SIZE : ℕ
  MEDIUM_THRESHOLD : ℕ
  HIGH_THRESHOLD : ℕ
  DENSITY_THRESHOLD : ℕ
deriving DecidableEq

/-- The `default_config` of `ClusterDetector.__init__`. -/
def defaultCDConfig : CDConfig :=
  ⟨3, 5, 8, 2⟩

/-- A `ClusterDetector` after `__init__`: room geometry, derived grid dimensions
and configuration (no validation is performed). -/
structure ClusterDetector where
  roomWidth : ℚ
  roomHeight : ℚ
  cellSize : ℚ
  gridCols : ℕ
  gridRows : ℕ
  cfg : CDConfig
deriving DecidableEq

/-- `ClusterDetector.__init__`: grid dimensions are `int(side / cell_size)`, at least 1. -/
def initCD (roomW roomH cellSize : ℚ) (cfg : CDConfig) : ClusterDetector :=
  ⟨roomW, roomH, cellSize,
    (max 1 (pyInt (roomW / cellSize))).toNat,
    (max 1 (pyInt (roomH / cellSize))).toNat, cfg⟩

/-- `ClusterDetector._position_to_cell`: truncate to a cell and clamp to the grid. -/
def positionToCell (d : ClusterDetector) (x y : ℚ) : ℤ × ℤ :=
  let col := pyInt (x / d.cellSize)
  let row := pyInt (y / d.cellSize)
  (max 0 (min ((d.gridRows : ℤ) - 1) row), max 0 (min ((d.gridCols : ℤ) - 1) col))

/-- `ClusterDetector._cell_to_position`: center `(x, y)` of a cell. -/
def cellToPosition (d : ClusterDetector) (row col : ℤ) : ℚ × ℚ :=
  (((col : ℚ) + 1/2) * d.cellSize, ((row : ℚ) + 1/2) * d.cellSize)

/-- The grid built by the position loop of `ClusterDetector.update`: the count of a
cell is the number of positions binned into it. -/
def gridOf (d : ClusterDetector) (positions : List (ℚ × ℚ)) : ℤ × ℤ → ℕ :=
  fun cell => (positions.filter (fun p => decide (positionToCell d p.1 p.2 = cell))).length

/-- `ClusterDetector._calculate_risk`. -/
def calcRisk (cfg : CDConfig) (count : ℕ) : String :=
  if count ≥ cfg.HIGH_THRESHOLD then "HIGH"
  else if count ≥ cfg.MEDIUM_THRESHOLD then "MEDIUM"
  else "LOW"

/-- A cluster dictionary as built by `_build_cluster` / `_find_clusters`. -/
structure Cluster where
  center : ℚ × ℚ
  count : ℕ
  cells : List (ℤ × ℤ)
  risk : String
deriving DecidableEq

/-- `ClusterDetector._build_cluster`: total count, count-weighted centroid
(rounded to 2 digits), and risk tier. -/
def buildCluster (d : ClusterDetector) (g : ℤ × ℤ → ℕ) (cells : List (ℤ × ℤ)) : Cluster :=
  match cells with
  | [] => ⟨(0, 0), 0, [], "LOW"⟩
  | c0 :: _ =>
    let totalCount := (cells.map g).sum
    let totalX := (cells.map (fun c => (cellToPosition d c.1 c.2).1 * (g c : ℚ))).sum
    let totalY := (cells.map (fun c => (cellToPosition d c.1 c.2).2 * (g c : ℚ))).sum
    let center :=
      if totalCount > 0 then (totalX / (totalCount : ℚ), totalY / (totalCount : ℚ))
      else cellToPosition d c0.1 c0.2
    ⟨(pyRound 2 center.1, pyRound 2 center.2), totalCount, cells, calcRisk d.cfg totalCount⟩

/-- The `while queue` loop of `ClusterDetector._bfs_cluster`, with explicit fuel
(the Python loop terminates because `visited` grows; any fuel bounding the number
of queue insertions gives the same result). Returns `(cluster_cells, visited)`. -/
def bfsAux (d : ClusterDetector) (g : ℤ × ℤ → ℕ) (thresh : ℕ) :
    ℕ → List (ℤ × ℤ) → List (ℤ × ℤ) → List (ℤ × ℤ) → List (ℤ × ℤ) × List (ℤ × ℤ)
  | 0, _, visited, cells => (cells, visited)
  | _ + 1, [], visited, cells => (cells, visited)
  | fuel + 1, c :: queue, visited, cells =>
    if c ∈ visited then bfsAux d g thresh fuel queue visited cells
    else if g c < thresh then bfsAux d g thresh fuel queue visited cells
    else
      let visited := visited ++ [c]
      let cells := cells ++ [c]
      let neighbors := [(c.1 - 1, c.2), (c.1 + 1, c.2), (c.1, c.2 - 1), (c.1, c.2 + 1)]
      let toAdd := neighbors.filter (fun n =>
        decide (0 ≤ n.1 ∧ n.1 < (d.gridRows : ℤ) ∧ 0 ≤ n.2 ∧ n.2 < (d.gridCols : ℤ) ∧
          n ∉ visited))
      bfsAux d g thresh fuel (queue ++ toAdd) visited cells

/-- `ClusterDetector._bfs_cluster`. The shared `visited` set is threaded explicitly. -/
def bfsCluster (d : ClusterDetector) (g : ℤ × ℤ → ℕ) (thresh : ℕ) (start : ℤ × ℤ)
    (visited : List (ℤ × ℤ)) : List (ℤ × ℤ) × List (ℤ × ℤ) :=
  if start ∈ visited then ([], visited)
  else if g start < thresh then ([], visited)
  else bfsAux d g thresh (4 * d.gridRows * d.gridCols + 1) [start] visited []

/-- The row-major cell enumeration of the two loops in `_find_clusters`. -/
def allCells (d : ClusterDetector) : List (ℤ × ℤ) :=
  (List.range d.gridRows).flatMap
    (fun r => (List.range d.gridCols).map (fun c => (Int.ofNat r, Int.ofNat c)))

/-- The loop body of the first pass of `ClusterDetector._find_clusters`. -/
def phase1Step (d : ClusterDetector) (g : ℤ × ℤ → ℕ)
    (acc : List (ℤ × ℤ) × List Cluster) (cell : ℤ × ℤ) : List (ℤ × ℤ) × List Cluster :=
  if cell ∈ acc.1 then acc
  else if g cell ≥ d.cfg.DENSITY_THRESHOLD then
    let res := bfsCluster d g d.cfg.DENSITY_THRESHOLD cell acc.1
    if res.1 ≠ [] then
      let cluster := buildCluster d g res.1
      if cluster.count ≥ d.cfg.MIN_CLUSTER_SIZE then (res.2, acc.2 ++ [cluster])
      else (res.2, acc.2)
    else (res.2, acc.2)
  else acc

/-- First pass of `ClusterDetector._find_clusters`: BFS-merge connected dense cells,
keeping clusters that reach the minimum size. Returns `(visited, clusters)`. -/
def findClustersPhase1 (d : ClusterDetector) (g : ℤ × ℤ → ℕ) :
    List (ℤ × ℤ) × List Cluster :=
  (allCells d).foldl (phase1Step d g) ([], [])

/-- Second pass of `_find_clusters`: isolated high-count cells, deduplicated against
existing cluster centers within `1.5 * cell_size`. The Python euclidean-distance
comparison `sqrt(dx^2 + dy^2) < 1.5 * cell_size` is modelled in the equivalent
squared form (equivalent whenever `cell_size ≥ 0`). -/
def phase2Step (d : ClusterDetector) (g : ℤ × ℤ → ℕ)
    (clusters : List Cluster) (cell : ℤ × ℤ) : List Cluster :=
  let count := g cell
  if count ≥ d.cfg.MIN_CLUSTER_SIZE then
    let cellCenter := cellToPosition d cell.1 cell.2
    let alreadyCounted := clusters.any (fun cl =>
      decide ((cl.center.1 - cellCenter.1) ^ 2 + (cl.center.2 - cellCenter.2) ^ 2 <
        (d.cellSize * (3/2)) ^ 2))
    if alreadyCounted then clusters
    else clusters ++ [⟨cellCenter, count, [cell], calcRisk d.cfg count⟩]
  else clusters

/-- Second pass of `_find_clusters` as a fold of `phase2Step` over the grid. -/
def findClustersPhase2 (d : ClusterDetector) (g : ℤ × ℤ → ℕ) (clusters : List Cluster) :
    List Cluster :=
  (allCells d).foldl (phase2Step d g) clusters

/-- `ClusterDetector._find_clusters`: both passes, then a stable sort by count,
largest first (`clusters.sort(key=..., reverse=True)`). -/
def findClusters (d : ClusterDetector) (g : ℤ × ℤ → ℕ) : List Cluster :=
  let clusters := findClustersPhase2 d g (findClustersPhase1 d g).2
  clusters.mergeSort (fun a b => b.count ≤ a.count)

/-- `ClusterDetector.update`: rebuild the grid from the positions and recompute
`self.clusters`. -/
def cdUpdate (d : ClusterDetector) (positions : List (ℚ × ℚ)) : List Cluster :=
  findClusters d (gridOf d positions)

/-- `ClusterDetector.get_max_cluster_size`. -/
def getMaxClusterSize (clusters : List Cluster) : ℕ :=
  match clusters.map (fun c => c.count) with
  | [] => 0
  | c :: rest => rest.foldl max c

/-- `ClusterDetector.get_cluster_risk_score`. -/
def getClusterRiskScore (cfg : CDConfig) (clusters : List Cluster) : ℚ :=
  if clusters = [] then 0
  else
    let maxSize := getMaxClusterSize clusters
    let sizeScore := min 1 ((maxSize : ℚ) / ((cfg.HIGH_THRESHOLD : ℚ) * (3/2)))
    let clusterCountScore := min 1 ((clusters.length : ℚ) / 5)
    let highRiskCount := (clusters.filter (fun c => c.risk = "HIGH")).length
    let highRiskScore := min 1 ((highRiskCount : ℚ) / 2)
    let totalScore := sizeScore * (1/2) + clusterCountScore * (1/5) + highRiskScore * (3/10)
    pyRound 3 (min 1 totalScore)

/-- Modelled from the spec sentence of claim C4: the third contribution is the
FRACTION of clusters classified HIGH (capped at 1.0), instead of the count halved. -/
def specClusterRiskScore (cfg : CDConfig) (clusters : List Cluster) : ℚ :=
  if clusters = [] then 0
  else
    let maxSize := getMaxClusterSize clusters
    let sizeScore := min 1 ((maxSize : ℚ) / ((cfg.HIGH_THRESHOLD : ℚ) * (3/2)))
    let clusterCountScore := min 1 ((clusters.length : ℚ) / 5)
    let highRiskCount := (clusters.filter (fun c => c.risk = "HIGH")).length
    let highRiskFraction := min 1 ((highRiskCount : ℚ) / (clusters.length : ℚ))
    let totalScore := sizeScore * (1/2) + clusterCountScore * (1/5) + highRiskFraction * (3/10)
    pyRound 3 (min 1 totalScore)

/-! ## AlertManager (`src/python/engine/alert_manager.py`) -/

/-- Alert severity levels of `AlertLevel`. -/
inductive AlertLevel
  | INFO
  | WARNING
  | CRITICAL
  | EMERGENCY
deriving DecidableEq

/-- Configuration fields of `AlertManager.__init__` used by `trigger_alert`. -/
structure AMConfig where
  COOLDOWN_SECONDS : ℚ
  MAX_ALERTS_PER_MINUTE : ℕ
deriving DecidableEq

/-- The relevant `default_config` entries of `AlertManager.__init__`. -/
def defaultAMConfig : AMConfig :=
  ⟨30, 10⟩

/-- An alert record as built by `trigger_alert`. -/
structure Alert where
  timestamp : ℚ
  level : AlertLevel
  message : String
  atype : String
deriving DecidableEq

/-- Mutable state of an `AlertManager`. The `dispatched` list records the alerts
handed to `_dispatch_alert` (console, buzzer, registered handlers). -/
structure AMState where
  alertHistory : List Alert
  lastAlertTime : List (String × ℚ)
  alertsThisMinute : List ℚ
  totalAlerts : ℕ
  suppressedAlerts : ℕ
  dispatched : List Alert
deriving DecidableEq

/-- State set up by `AlertManager.__init__`. -/
def initAM : AMState :=
  ⟨[], [], [], 0, 0, []⟩

/-- `AlertManager._check_rate_limit`: strictly fewer than the per-minute maximum
of tracked alert timestamps within the trailing 60 seconds. -/
def checkRateLimit (cfg : AMConfig) (alertsThisMinute : List ℚ) (timestamp : ℚ) : Bool :=
  decide ((alertsThisMinute.filter (fun x => decide (x ≥ timestamp - 60))).length <
    cfg.MAX_ALERTS_PER_MINUTE)

/-- `AlertManager._check_cooldown`: at least the cooldown has passed since the last
alert of this TYPE (`self.last_alert_time.get(alert_type, 0)`). -/
def checkCooldown (cfg : AMConfig) (lastAlertTime : List (String × ℚ)) (atype : String)
    (timestamp : ℚ) : Bool :=
  decide (timestamp - ((lastAlertTime.lookup atype).getD 0) ≥ cfg.COOLDOWN_SECONDS)

/-- `self.last_alert_time[alert_type] = timestamp` on the association list. -/
def setAssoc (l : List (String × ℚ)) (k : String) (v : ℚ) : List (String × ℚ) :=
  if l.any (fun p => decide (p.1 = k)) then
    l.map (fun p => if p.1 = k then (k, v) else p)
  else l ++ [(k, v)]

/-- `AlertManager.trigger_alert`: returns whether the alert was emitted together with
the updated manager state. -/
def triggerAlert (cfg : AMConfig) (s : AMState) (level : AlertLevel) (message : String)
    (atype : String) (timestamp : ℚ) : Bool × AMState :=
  if !(checkRateLimit cfg s.alertsThisMinute timestamp) then
    (false, { s with suppressedAlerts := s.suppressedAlerts + 1 })
  else if !(checkCooldown cfg s.lastAlertTime atype timestamp) then
    (false, { s with suppressedAlerts := s.suppressedAlerts + 1 })
  else
    let alert : Alert := ⟨timestamp, level, message, atype⟩
    (true, { s with
      alertHistory := appendBounded 100 s.alertHistory alert,
      totalAlerts := s.totalAlerts + 1,
      lastAlertTime := setAssoc s.lastAlertTime atype timestamp,
      alertsThisMinute := appendBounded 100 s.alertsThisMinute timestamp,
      dispatched := s.dispatched ++ [alert] })

/-! ## Concrete sample data and small helpers used in the statements below -/

/-- The per-reading debounced side of a distance reading for a `ZoneDetector`:
`CROWDED` below the crowded threshold, `CLEAR` at or above the clear threshold. -/
def zdSide (cfg : ZDConfig) (distance : ℚ) : ZState :=
  if distance < cfg.ZONE_CROWDED_DIST then .CROWDED else .CLEAR

/-- The maximum of a list of rationals (Python `max(counts)`, 0 for the empty list). -/
def listMax : List ℚ → ℚ
  | [] => 0
  | c :: rest => rest.foldl max c

/-- Sensor data of an empty room: all distances 300 cm, sound 40 dB. -/
def clearData : SensorData :=
  ⟨some ⟨some 300, none⟩, some ⟨some 300, none⟩, some ⟨some 300, some 40⟩⟩

/-- Sensor data of a packed room: distances 40/50/35 cm, sound 92 dB. -/
def busyData : SensorData :=
  ⟨some ⟨some 40, none⟩, some ⟨some 50, none⟩, some ⟨some 35, some 92⟩⟩

/-- An invalid `SurgeEngine` configuration: the five risk weights sum to 2, not 1. -/
def invalidWeightsConfig : SurgeConfig :=
  ⟨3, 10, ⟨2/5, 2/5, 2/5, 2/5, 2/5⟩⟩

/-- An invalid `PassageDetector` configuration: the passage threshold (200 cm) is
ABOVE the presence threshold (100 cm), out of ascending order. -/
def invalidPDConfig : PDConfig :=
  ⟨200, 100, 200, 800, 300, 150, 500⟩

/-- A fresh default `PassageDetector` after one reading at 100 cm: it is in
`APPROACH` with no close timer running. -/
def pdApproach : PDState :=
  pdProcessReading defaultPDConfig (initPD defaultPDConfig) 100 0

/-- The default `ClusterDetector` of the test suite: 10 m × 10 m room, 2 m cells. -/
def sampleCD : ClusterDetector :=
  initCD 10 10 2 defaultCDConfig

/-- Eight positions inside the single grid cell containing `(1, 1)`. -/
def eightPositions : List (ℚ × ℚ) :=
  List.replicate 8 (1, 1)

/-- Two positions inside the single grid cell containing `(1, 1)`. -/
def twoPositions : List (ℚ × ℚ) :=
  List.replicate 2 (1, 1)

/-- The single HIGH cluster produced by updating `sampleCD` with `eightPositions`. -/
def sampleCluster : Cluster :=
  ⟨(1, 1), 8, [(0, 0)], "HIGH"⟩

/-- Two nodes tied at the maximal count 5. -/
def tiedNodes : List (String × DTNodeData) :=
  [("A", ⟨5, 0⟩), ("B", ⟨5, 0⟩)]

/-- Two nodes with distinct counts 5 and 3. -/
def distinctNodes : List (String × DTNodeData) :=
  [("A", ⟨5, 0⟩), ("C", ⟨3, 0⟩)]

/-! ## Helper lemmas -/

theorem lookup_map_set (l : List (String × ℚ)) (k : String) (v : ℚ)
    (h : l.any (fun p => decide (p.1 = k)) = true) :
    (l.map (fun p => if p.1 = k then (k, v) else p)).lookup k = some v := by
  induction l with
  | nil => simp at h
  | cons p rest ih =>
    by_cases hp : p.1 = k
    · rw [List.map_cons, if_pos hp]
      simp [List.lookup]
    · have hrest : rest.any (fun p => decide (p.1 = k)) = true := by
        simpa [hp] using h
      have hne : (k == p.1) = false := by
        simp [Ne.symm hp]
      rw [List.map_cons, if_neg hp]
      simp [List.lookup, hne, ih hrest]

theorem lookup_append_new (l : List (String × ℚ)) (k : String) (v : ℚ)
    (h : l.any (fun p => decide (p.1 = k)) = false) :
    (l ++ [(k, v)]).lookup k = some v := by
  induction l with
  | nil => simp [List.lookup]
  | cons p rest ih =>
    have hp : ¬(p.1 = k) := by
      intro hk
      simp [hk] at h
    have hrest : rest.any (fun p => decide (p.1 = k)) = false := by
      rcases List.any_eq_false.mp h with hall
      exact List.any_eq_false.mpr (fun x hx => hall x (List.mem_cons_of_mem p hx))
    have hne : (k == p.1) = false := by
      simp [Ne.symm hp]
    simp [List.lookup, hne, ih hrest]

theorem lookup_setAssoc (l : List (String × ℚ)) (k : String) (v : ℚ) :
    (setAssoc l k v).lookup k = some v := by
  unfold setAssoc
  by_cases h : l.any (fun p => decide (p.1 = k)) = true
  · simp only [h, if_true]
    exact lookup_map_set l k v h
  · have h' : l.any (fun p => decide (p.1 = k)) = false := by
      cases hv : l.any (fun p => decide (p.1 = k)) with
      | true => exact absurd hv h
      | false => rfl
    simp only [h', Bool.false_eq_true, if_false]
    exact lookup_append_new l k v h'

theorem listMax_mem : ∀ (rest : List ℚ) (c : ℚ), rest.foldl max c ∈ c :: rest := by
  intro rest
  induction rest with
  | nil => intro c; simp
  | cons d rest ih =>
    intro c
    have h := ih (max c d)
    rcases List.mem_cons.mp h with h | h
    · rcases max_choice c d with hm | hm <;> rw [List.foldl_cons, h, hm] <;> simp
    · simp [List.foldl_cons, List.mem_cons.mpr (Or.inr (List.mem_cons_of_mem d h))]

theorem sum_filter_ne_of_count_one (l : List ℚ) (a : ℚ) (h : l.count a = 1) :
    (l.filter (fun x => decide (x ≠ a))).sum = l.sum - a := by
  induction l with
  | nil => simp at h
  | cons x l ih =>
    rw [List.count_cons] at h
    by_cases hx : x = a
    · subst hx
      simp only [beq_self_eq_true, if_true] at h
      have hcount : l.count x = 0 := by omega
      have hnot : x ∉ l := List.count_eq_zero.mp hcount
      have hfilter : l.filter (fun y => decide (y ≠ x)) = l := by
        apply List.filter_eq_self.mpr
        intro y hy
        simp only [decide_eq_true_eq]
        exact fun hyx => hnot (hyx ▸ hy)
      rw [List.filter_cons, if_neg (by simp), hfilter, List.sum_cons]
      ring
    · have hax : (x == a) = false := by
        simp [hx]
      rw [hax] at h
      simp only [Bool.false_eq_true, if_false, add_zero] at h
      rw [List.filter_cons, if_pos (by simp [hx]), List.sum_cons, ih h, List.sum_cons]
      ring

/-! ## Claim C9: sound-level risk component -/

/-- C9 counterexample: the sound component is NOT monotonically nondecreasing.
At 70 dB it evaluates to 0.5, just above 70 dB it drops to (71-70)/15 ≈ 0.067. -/
theorem C9_counterexample :
    soundScore 70 = 1/2 ∧ soundScore 71 = 1/15 ∧ ¬ soundScore 70 ≤ soundScore 71 := by
  norm_num [soundScore]

/-- C9 (amended): the sound-level risk component is piecewise linear, equal to 0 at or
below the 55 dB quiet threshold, firmly capped at 1 above the 85 dB scream threshold,
always within [0,1], and nondecreasing within each linear piece (55,70] and (70,∞);
it is NOT globally monotone (it drops discontinuously at 70 dB, see the
counterexample). The last conjunct ties `soundScore` to the component computed by
`_calculate_components` for non-empty sensor data. -/
theorem C9_sound_component :
    (∀ s : ℚ, s ≤ 55 → soundScore s = 0) ∧
    (∀ s : ℚ, 85 < s → soundScore s = 1) ∧
    (∀ s : ℚ, 0 ≤ soundScore s ∧ soundScore s ≤ 1) ∧
    (∀ a b : ℚ, 55 < a → a ≤ b → b ≤ 70 → soundScore a ≤ soundScore b) ∧
    (∀ a b : ℚ, 70 < a → a ≤ b → soundScore a ≤ soundScore b) ∧
    (∀ d : SensorData, ¬(d.A = none ∧ d.B = none ∧ d.C = none) →
      (calcComponents d).sound_level = soundScore (getSound d.C)) := by
  refine ⟨?_, ?_, ?_, ?_, ?_, ?_⟩
  · intro s hs
    unfold soundScore
    split_ifs <;> linarith
  · intro s hs
    unfold soundScore
    split_ifs <;> linarith
  · intro s
    unfold soundScore
    split_ifs <;> constructor <;> linarith
  · intro a b ha hab hb
    unfold soundScore
    split_ifs <;> linarith
  · intro a b ha hab
    unfold soundScore
    split_ifs <;> linarith
  · intro d hd
    simp only [calcComponents, if_neg hd]

/-- C9 witness: the amended theorem applied at concrete inputs. -/
theorem C9_sound_component_witness :
    soundScore 50 = 0 ∧ soundScore 90 = 1 ∧ soundScore 60 ≤ soundScore 65 ∧
      soundScore 75 ≤ soundScore 80 := by
  refine ⟨C9_sound_component.1 50 (by norm_num), C9_sound_component.2.1 90 (by norm_num),
    C9_sound_component.2.2.2.1 60 65 (by norm_num) (by norm_num) (by norm_num),
    C9_sound_component.2.2.2.2.1 75 80 (by norm_num) (by norm_num)⟩

/-! ## Claim C3: configuration validation at construction -/

/-- C3 counterexample: an invalid configuration (risk weights summing to 2, a passage
threshold above the presence threshold) is accepted at construction and produces
output at runtime instead of failing: the mis-weighted engine computes a (clamped)
risk score of 1 and the mis-ordered detector processes a reading normally. -/
theorem C3_counterexample :
    invalidWeightsConfig.RISK_WEIGHTS.flow_imbalance +
        invalidWeightsConfig.RISK_WEIGHTS.entry_velocity +
        invalidWeightsConfig.RISK_WEIGHTS.cluster_density +
        invalidWeightsConfig.RISK_WEIGHTS.zone_blockage +
        invalidWeightsConfig.RISK_WEIGHTS.sound_level = 2 ∧
      engineRisk invalidWeightsConfig busyData = 1 ∧
      riskToState (engineRisk invalidWeightsConfig busyData) = .SURGE ∧
      invalidPDConfig.PRESENCE_THRESHOLD < invalidPDConfig.PASSAGE_THRESHOLD ∧
      (pdProcessReading invalidPDConfig (initPD invalidPDConfig) 120 0).state = .BASELINE := by
  have hrisk : engineRisk invalidWeightsConfig busyData = 1 := by
    norm_num [engineRisk, calcComponents, invalidWeightsConfig, busyData, getDist, getSound,
      soundScore, Option.some_ne_none]
  refine ⟨by norm_num [invalidWeightsConfig], hrisk, ?_, by norm_num [invalidPDConfig], ?_⟩
  · rw [hrisk]
    norm_num [riskToState]
  · norm_num [pdProcessReading, initPD, invalidPDConfig, pdProcessBaseline]

/-- C3 (amended): no component validates its configuration at construction.
`SurgeEngine.__init__`, `PassageDetector.__init__` and `ClusterDetector.__init__`
accept EVERY configuration — weights that do not sum to 1.0 and thresholds out of
order included — and construction always yields the same well-defined initial state;
at runtime the engine silently clamps the risk score into [0,1] instead of failing. -/
theorem C3_no_validation :
    (∀ cfg : SurgeConfig, initEngine cfg = ⟨.CLEAR, none, none⟩) ∧
    (∀ (cfg : SurgeConfig) (d : SensorData), 0 ≤ engineRisk cfg d ∧ engineRisk cfg d ≤ 1) ∧
    (∀ cfg : PDConfig, (initPD cfg).state = .BASELINE ∧ (initPD cfg).passageCount = 0) ∧
    (∀ (w h c : ℚ) (cfg : CDConfig),
      1 ≤ (initCD w h c cfg).gridCols ∧ 1 ≤ (initCD w h c cfg).gridRows) := by
  refine ⟨fun _ => rfl, ?_, fun _ => ⟨rfl, rfl⟩, ?_⟩
  · intro cfg d
    unfold engineRisk
    exact ⟨le_max_left _ _, max_le (by norm_num) (min_le_left _ _)⟩
  · intro w h c cfg
    constructor
    · have h1 : (1 : ℤ) ≤ max 1 (pyInt (w / c)) := le_max_left _ _
      simp only [initCD]
      omega
    · have h1 : (1 : ℤ) ≤ max 1 (pyInt (h / c)) := le_max_left _ _
      simp only [initCD]
      omega

/-! ## Claim C10: suppression leaves the manager state untouched -/

/-- C10: whenever `trigger_alert` returns `False` (suppressed by the rate limit or the
cooldown), the alert history, the per-type last-alert timestamps, the rolling
rate-limit window, the total-alerts counter and the dispatched-alerts record are all
unchanged, and only the suppressed counter grows, by exactly 1. -/
theorem C10_suppression_frame (cfg : AMConfig) (s : AMState) (level : AlertLevel)
    (message atype : String) (timestamp : ℚ)
    (h : (triggerAlert cfg s level message atype timestamp).1 = false) :
    (triggerAlert cfg s level message atype timestamp).2.alertHistory = s.alertHistory ∧
    (triggerAlert cfg s level message atype timestamp).2.lastAlertTime = s.lastAlertTime ∧
    (triggerAlert cfg s level message atype timestamp).2.alertsThisMinute =
      s.alertsThisMinute ∧
    (triggerAlert cfg s level message atype timestamp).2.totalAlerts = s.totalAlerts ∧
    (triggerAlert cfg s level message atype timestamp).2.dispatched = s.dispatched ∧
    (triggerAlert cfg s level message atype timestamp).2.suppressedAlerts =
      s.suppressedAlerts + 1 := by
  cases hrl : checkRateLimit cfg s.alertsThisMinute timestamp <;>
    cases hcd : checkCooldown cfg s.lastAlertTime atype timestamp <;>
    simp_all [triggerAlert]

/-- C10 witness: a concrete suppressed call (fresh manager, timestamp 1, so the
default per-type timestamp 0 means the 30 s cooldown has not yet elapsed). -/
theorem C10_suppression_frame_witness :
    (triggerAlert defaultAMConfig initAM .INFO "msg" "general" 1).1 = false ∧
    (triggerAlert defaultAMConfig initAM .INFO "msg" "general" 1).2.suppressedAlerts =
      initAM.suppressedAlerts + 1 := by
  have h : (triggerAlert defaultAMConfig initAM .INFO "msg" "general" 1).1 = false := by
    norm_num [triggerAlert, checkRateLimit, checkCooldown, initAM, defaultAMConfig, List.lookup]
  exact ⟨h,
    (C10_suppression_frame defaultAMConfig initAM .INFO "msg" "general" 1 h).2.2.2.2.2⟩

/-! ## Claim C7: alert cooldown discipline -/

/-- C7 counterexample: the cooldown is NOT tracked per level. Two WARNING-level
alerts of different types fired 1 s apart (well inside the 30 s cooldown) are BOTH
emitted, while a CRITICAL-level alert of the first type 1 s later is suppressed. -/
theorem C7_counterexample :
    (triggerAlert defaultAMConfig initAM AlertLevel.WARNING "w1" "typeA" 1000).1 = true ∧
    (triggerAlert defaultAMConfig
      (triggerAlert defaultAMConfig initAM AlertLevel.WARNING "w1" "typeA" 1000).2
      AlertLevel.WARNING "w2" "typeB" 1001).1 = true ∧
    (triggerAlert defaultAMConfig
      (triggerAlert defaultAMConfig initAM AlertLevel.WARNING "w1" "typeA" 1000).2
      AlertLevel.CRITICAL "c1" "typeA" 1001).1 = false ∧
    (1001 : ℚ) - 1000 < defaultAMConfig.COOLDOWN_SECONDS := by
  have h1 : (triggerAlert defaultAMConfig initAM AlertLevel.WARNING "w1" "typeA" 1000).1 = true ∧
      (triggerAlert defaultAMConfig initAM AlertLevel.WARNING "w1" "typeA" 1000).2 =
        ⟨[⟨1000, .WARNING, "w1", "typeA"⟩], [("typeA", 1000)], [1000], 1, 0,
          [⟨1000, .WARNING, "w1", "typeA"⟩]⟩ := by
    constructor <;>
      norm_num [triggerAlert, checkRateLimit, checkCooldown, initAM, defaultAMConfig,
        List.lookup, appendBounded, setAssoc]
  refine ⟨h1.1, ?_, ?_, by norm_num [defaultAMConfig]⟩ <;> rw [h1.2] <;>
    norm_num [triggerAlert, checkRateLimit, checkCooldown, defaultAMConfig, List.lookup,
      appendBounded, setAssoc, show ("typeB" == "typeA") = false from rfl,
      show ("typeA" == "typeA") = true from rfl]

/-- C7 (amended): the cooldown is tracked per alert TYPE (the `alert_type` argument),
not per level. An alert is emitted iff the rolling-minute rate limit is respected and
the per-TYPE cooldown has elapsed; a second trigger of the same type (any level)
within the cooldown window is suppressed with the suppressed counter incremented by
exactly 1, and once the cooldown has elapsed the next same-type trigger succeeds
provided the rate limit allows it. -/
theorem C7_alert_cooldown :
    (∀ (cfg : AMConfig) (s : AMState) (level : AlertLevel) (message atype : String) (t : ℚ),
      (triggerAlert cfg s level message atype t).1 = true ↔
        (checkRateLimit cfg s.alertsThisMinute t = true ∧
          checkCooldown cfg s.lastAlertTime atype t = true)) ∧
    (∀ (cfg : AMConfig) (s : AMState) (l₁ l₂ : AlertLevel) (m₁ m₂ atype : String) (t t' : ℚ),
      (triggerAlert cfg s l₁ m₁ atype t).1 = true →
      t' - t < cfg.COOLDOWN_SECONDS →
      (triggerAlert cfg (triggerAlert cfg s l₁ m₁ atype t).2 l₂ m₂ atype t').1 = false ∧
        (triggerAlert cfg (triggerAlert cfg s l₁ m₁ atype t).2 l₂ m₂ atype t').2.suppressedAlerts
          = (triggerAlert cfg s l₁ m₁ atype t).2.suppressedAlerts + 1) ∧
    (∀ (cfg : AMConfig) (s : AMState) (l₁ l₂ : AlertLevel) (m₁ m₂ atype : String) (t t' : ℚ),
      (triggerAlert cfg s l₁ m₁ atype t).1 = true →
      cfg.COOLDOWN_SECONDS ≤ t' - t →
      checkRateLimit cfg (triggerAlert cfg s l₁ m₁ atype t).2.alertsThisMinute t' = true →
      (triggerAlert cfg (triggerAlert cfg s l₁ m₁ atype t).2 l₂ m₂ atype t').1 = true) := by
  have hiff : ∀ (cfg : AMConfig) (s : AMState) (level : AlertLevel) (message atype : String)
      (t : ℚ), (triggerAlert cfg s level message atype t).1 = true ↔
        (checkRateLimit cfg s.alertsThisMinute t = true ∧
          checkCooldown cfg s.lastAlertTime atype t = true) := by
    intro cfg s level message atype t
    cases hrl : checkRateLimit cfg s.alertsThisMinute t <;>
      cases hcd : checkCooldown cfg s.lastAlertTime atype t <;>
      simp [triggerAlert, hrl, hcd]
  have hsucc : ∀ (cfg : AMConfig) (s : AMState) (l : AlertLevel) (m atype : String) (t : ℚ),
      (triggerAlert cfg s l m atype t).1 = true →
      (triggerAlert cfg s l m atype t).2.lastAlertTime = setAssoc s.lastAlertTime atype t ∧
        (triggerAlert cfg s l m atype t).2.suppressedAlerts = s.suppressedAlerts := by
    intro cfg s l m atype t h
    rcases (hiff cfg s l m atype t).mp h with ⟨hrl, hcd⟩
    simp [triggerAlert, hrl, hcd]
  refine ⟨hiff, ?_, ?_⟩
  · intro cfg s l₁ l₂ m₁ m₂ atype t t' h1 hlt
    have hla := hsucc cfg s l₁ m₁ atype t h1
    generalize hgen : (triggerAlert cfg s l₁ m₁ atype t).2 = s' at hla ⊢
    have hcool : checkCooldown cfg s'.lastAlertTime atype t' = false := by
      rw [hla.1]
      unfold checkCooldown
      rw [lookup_setAssoc]
      simp only [Option.getD_some, decide_eq_false_iff_not, not_le]
      exact hlt
    cases hrl : checkRateLimit cfg s'.alertsThisMinute t' <;>
      simp [triggerAlert, hrl, hcool]
  · intro cfg s l₁ l₂ m₁ m₂ atype t t' h1 hge hrl
    have hla := hsucc cfg s l₁ m₁ atype t h1
    generalize hgen : (triggerAlert cfg s l₁ m₁ atype t).2 = s' at hla hrl ⊢
    have hcool : checkCooldown cfg s'.lastAlertTime atype t' = true := by
      rw [hla.1]
      unfold checkCooldown
      rw [lookup_setAssoc]
      simpa using hge
    simp [triggerAlert, hrl, hcool]

/-- C7 witness: with the default 30 s cooldown, a WARNING of type "surge" at t=1000
is emitted, a repeat at t=1010 is suppressed (suppressed counter +1), and a repeat at
t=1030 is emitted again. -/
theorem C7_alert_cooldown_witness :
    (triggerAlert defaultAMConfig initAM AlertLevel.WARNING "w" "surge" 1000).1 = true ∧
    (triggerAlert defaultAMConfig
      (triggerAlert defaultAMConfig initAM AlertLevel.WARNING "w" "surge" 1000).2
      AlertLevel.WARNING "w" "surge" 1010).1 = false ∧
    (triggerAlert defaultAMConfig
      (triggerAlert defaultAMConfig initAM AlertLevel.WARNING "w" "surge" 1000).2
      AlertLevel.WARNING "w" "surge" 1030).1 = true := by
  have h1 : (triggerAlert defaultAMConfig initAM AlertLevel.WARNING "w" "surge" 1000).1 =
      true := by
    norm_num [triggerAlert, checkRateLimit, checkCooldown, initAM, defaultAMConfig, List.lookup]
  refine ⟨h1, (C7_alert_cooldown.2.1 defaultAMConfig initAM .WARNING .WARNING "w" "w" "surge"
    1000 1010 h1 (by norm_num [defaultAMConfig])).1, ?_⟩
  apply C7_alert_cooldown.2.2 defaultAMConfig initAM .WARNING .WARNING "w" "w" "surge"
    1000 1030 h1 (by norm_num [defaultAMConfig])
  have h2 : (triggerAlert defaultAMConfig initAM AlertLevel.WARNING "w" "surge" 1000).2 =
      ⟨[⟨1000, .WARNING, "w", "surge"⟩], [("surge", 1000)], [1000], 1, 0,
        [⟨1000, .WARNING, "w", "surge"⟩]⟩ := by
    norm_num [triggerAlert, checkRateLimit, checkCooldown, initAM, defaultAMConfig,
      List.lookup, appendBounded, setAssoc]
  rw [h2]
  norm_num [checkRateLimit, defaultAMConfig]

/-! ## Claim C5: device-count fusion -/

/-- C5 counterexample: with two nodes tied at the maximal count 5, the code sums the
counts DIFFERENT from the maximum (so the tied node contributes nothing):
`int((5 + 0.3*0) * 1.4) = 7`, whereas the claimed formula (exclude only one chosen
maximum node) gives `int((5 + 0.3*5) * 1.4) = 9`. -/
theorem C5_counterexample :
    getDeviceCount defaultDTConfig tiedNodes 0 = 7 ∧
    specDeviceCount defaultDTConfig tiedNodes 0 = 9 ∧
    getDeviceCount defaultDTConfig tiedNodes 0 ≠ specDeviceCount defaultDTConfig tiedNodes 0 := by
  have h1 : getDeviceCount defaultDTConfig tiedNodes 0 = 7 := by
    norm_num [getDeviceCount, activeNodes, tiedNodes, defaultDTConfig, pyInt,
      Int.floor_eq_iff]
  have h2 : specDeviceCount defaultDTConfig tiedNodes 0 = 9 := by
    norm_num [specDeviceCount, activeNodes, tiedNodes, defaultDTConfig, pyInt,
      Int.floor_eq_iff]
  exact ⟨h1, h2, by rw [h1, h2]; norm_num⟩

/-- C5 (amended): `get_device_count` adds the overlap fraction of the sum of the
counts that DIFFER from the maximum (all nodes tied with the maximum are excluded,
not just one chosen maximum node). When the maximum is attained by exactly one
active node the two readings coincide, so the original claim holds exactly in the
tie-free case; with no active nodes the count is 0. -/
theorem C5_device_count :
    (∀ (cfg : DTConfig) (nodeData : List (String × DTNodeData)) (now : ℚ),
      activeNodes cfg nodeData now = [] → getDeviceCount cfg nodeData now = 0) ∧
    (∀ (cfg : DTConfig) (nodeData : List (String × DTNodeData)) (now : ℚ),
      (((activeNodes cfg nodeData now).map (fun p => (p.2.count : ℚ))).count
          (listMax ((activeNodes cfg nodeData now).map (fun p => (p.2.count : ℚ)))) ≤ 1) →
      getDeviceCount cfg nodeData now = specDeviceCount cfg nodeData now) := by
  constructor
  · intro cfg nodeData now h
    simp [getDeviceCount, h]
  · intro cfg nodeData now h
    unfold getDeviceCount specDeviceCount
    cases hc : (activeNodes cfg nodeData now).map (fun p => (p.2.count : ℚ)) with
    | nil => rfl
    | cons c rest =>
      rw [hc] at h
      have hmax : listMax (c :: rest) = rest.foldl max c := rfl
      rw [hmax] at h
      have hmem : rest.foldl max c ∈ c :: rest := listMax_mem rest c
      have hcount : (c :: rest).count (rest.foldl max c) = 1 := by
        have := List.count_pos_iff.mpr hmem
        omega
      have hsum := sum_filter_ne_of_count_one (c :: rest) (rest.foldl max c) hcount
      simp only [hsum]

/-! ## Rounding bounds -/

theorem roundHalfEven_err (q : ℚ) : |(roundHalfEven q : ℚ) - q| ≤ 1/2 := by
  simp only [roundHalfEven]
  have h0 : (⌊q⌋ : ℚ) ≤ q := Int.floor_le q
  have h1 : q < (⌊q⌋ : ℚ) + 1 := Int.lt_floor_add_one q
  split_ifs <;> rw [abs_le] <;> constructor <;> push_cast <;> linarith

theorem roundHalfEven_nonneg (q : ℚ) (h : 0 ≤ q) : 0 ≤ roundHalfEven q := by
  simp only [roundHalfEven]
  have h0 : 0 ≤ ⌊q⌋ := Int.floor_nonneg.mpr h
  split_ifs <;> omega

theorem roundHalfEven_le_int (q : ℚ) (n : ℤ) (h : q ≤ n) : roundHalfEven q ≤ n := by
  simp only [roundHalfEven]
  have h0 : ⌊q⌋ ≤ n := by
    calc ⌊q⌋ ≤ ⌊(n : ℚ)⌋ := Int.floor_le_floor h
    _ = n := Int.floor_intCast n
  have hfl : (⌊q⌋ : ℚ) ≤ q := Int.floor_le q
  split_ifs with hr hr2
  · exact h0
  all_goals
  · have hlt : ⌊q⌋ < n := by
      rcases lt_or_eq_of_le h0 with hlt | heq
      · exact hlt
      · exfalso
        rw [heq] at hfl
        have : q - n < 1/2 := by linarith [show (n:ℚ) ≤ q from hfl, h]
        rw [← heq] at this
        simp only [not_lt] at hr
        linarith [hr]
    omega

theorem pyRound_bounds (k : ℕ) (q : ℚ) (h0 : 0 ≤ q) (h1 : q ≤ 1) :
    0 ≤ pyRound k q ∧ pyRound k q ≤ 1 := by
  unfold pyRound
  have hp : (0 : ℚ) < 10 ^ k := by positivity
  have hnn : 0 ≤ roundHalfEven (q * 10 ^ k) :=
    roundHalfEven_nonneg _ (by positivity)
  have hle : roundHalfEven (q * 10 ^ k) ≤ (10 ^ k : ℕ) := by
    apply roundHalfEven_le_int
    push_cast
    nlinarith
  constructor
  · positivity
  · rw [div_le_one hp]
    calc ((roundHalfEven (q * 10 ^ k) : ℤ) : ℚ) ≤ ((10 ^ k : ℕ) : ℚ) := by exact_mod_cast hle
    _ = 10 ^ k := by push_cast; ring

theorem pyRound_err (q : ℚ) : |pyRound 2 q - q| ≤ 1/200 := by
  unfold pyRound
  have herr := roundHalfEven_err (q * 10 ^ 2)
  have : pyRound 2 q - q = ((roundHalfEven (q * 10 ^ 2) : ℚ) - q * 10 ^ 2) / 10 ^ 2 := by
    unfold pyRound
    ring
  rw [show ((roundHalfEven (q * 10 ^ 2) : ℚ)) / 10 ^ 2 - q =
    ((roundHalfEven (q * 10 ^ 2) : ℚ) - q * 10 ^ 2) / 10 ^ 2 by ring]
  rw [abs_div]
  have h2 : |(10 : ℚ) ^ 2| = 100 := by norm_num
  rw [h2]
  rw [div_le_iff₀ (by norm_num : (0:ℚ) < 100)]
  calc |(roundHalfEven (q * 10 ^ 2) : ℚ) - q * 10 ^ 2| ≤ 1/2 := herr
  _ ≤ 1/200 * 100 := by norm_num

/-! ## ClusterDetector scenario lemmas -/

theorem gridOf_eq_length (d : ClusterDetector) (ps : List (ℚ × ℚ)) (rc : ℤ × ℤ)
    (h : ∀ p ∈ ps, positionToCell d p.1 p.2 = rc) :
    gridOf d ps rc = ps.length := by
  unfold gridOf
  rw [List.filter_eq_self.mpr]
  intro p hp
  simp [h p hp]

theorem gridOf_eq_zero (d : ClusterDetector) (ps : List (ℚ × ℚ)) (rc cell : ℤ × ℤ)
    (h : ∀ p ∈ ps, positionToCell d p.1 p.2 = rc) (hne : cell ≠ rc) :
    gridOf d ps cell = 0 := by
  unfold gridOf
  rw [List.length_eq_zero, List.filter_eq_nil_iff]
  intro p hp
  simp [h p hp, Ne.symm hne]

theorem bfsAux_skip (d : ClusterDetector) (g : ℤ × ℤ → ℕ) (thresh : ℕ) :
    ∀ (fuel : ℕ) (queue visited cells : List (ℤ × ℤ)),
      (∀ q ∈ queue, g q < thresh) →
      bfsAux d g thresh fuel queue visited cells = (cells, visited) := by
  intro fuel
  induction fuel with
  | zero => intro queue visited cells _; rfl
  | succ fuel ih =>
    intro queue visited cells hq
    cases queue with
    | nil => rfl
    | cons c rest =>
      have hc : g c < thresh := hq c (List.mem_cons_self c rest)
      have hrest : ∀ q ∈ rest, g q < thresh := fun q hq' => hq q (List.mem_cons_of_mem c hq')
      unfold bfsAux
      by_cases h1 : c ∈ visited
      · rw [if_pos h1]
        exact ih rest visited cells hrest
      · rw [if_neg h1, if_pos hc]
        exact ih rest visited cells hrest

theorem bfsCluster_single (d : ClusterDetector) (g : ℤ × ℤ → ℕ) (thresh : ℕ) (rc : ℤ × ℤ)
    (hge : thresh ≤ g rc) (hng : ∀ cell, cell ≠ rc → g cell < thresh) :
    bfsCluster d g thresh rc [] = ([rc], [rc]) := by
  unfold bfsCluster
  rw [if_neg (List.not_mem_nil rc), if_neg (not_lt.mpr hge)]
  show bfsAux d g thresh (4 * d.gridRows * d.gridCols + 1) [rc] [] [] = ([rc], [rc])
  unfold bfsAux
  rw [if_neg (List.not_mem_nil rc), if_neg (not_lt.mpr hge)]
  apply bfsAux_skip
  intro q hq
  rw [List.nil_append] at hq
  have hmem := (List.mem_filter.mp hq).1
  apply hng
  simp only [List.mem_cons, List.not_mem_nil, or_false] at hmem
  rcases hmem with h | h | h | h <;> subst h <;> intro hEq
  · exact absurd (show rc.1 - 1 = rc.1 from congrArg Prod.fst hEq) (by omega)
  · exact absurd (show rc.1 + 1 = rc.1 from congrArg Prod.fst hEq) (by omega)
  · exact absurd (show rc.2 - 1 = rc.2 from congrArg Prod.snd hEq) (by omega)
  · exact absurd (show rc.2 + 1 = rc.2 from congrArg Prod.snd hEq) (by omega)

theorem phase1_skip (d : ClusterDetector) (g : ℤ × ℤ → ℕ) :
    ∀ (l : List (ℤ × ℤ)) (acc : List (ℤ × ℤ) × List Cluster),
      (∀ cell ∈ l, g cell < d.cfg.DENSITY_THRESHOLD) →
      l.foldl (phase1Step d g) acc = acc := by
  intro l
  induction l with
  | nil => intro acc _; rfl
  | cons c rest ih =>
    rintro ⟨visited, clusters⟩ hl
    have hc : g c < d.cfg.DENSITY_THRESHOLD := hl c (List.mem_cons_self c rest)
    have hrest : ∀ cell ∈ rest, g cell < d.cfg.DENSITY_THRESHOLD :=
      fun cell h => hl cell (List.mem_cons_of_mem c h)
    rw [List.foldl_cons]
    have hstep : phase1Step d g (visited, clusters) c = (visited, clusters) := by
      unfold phase1Step
      dsimp only
      by_cases h1 : c ∈ visited
      · rw [if_pos h1]
      · rw [if_neg h1, if_neg (not_le.mpr hc)]
    rw [hstep]
    exact ih (visited, clusters) hrest

theorem phase2_skip (d : ClusterDetector) (g : ℤ × ℤ → ℕ) :
    ∀ (l : List (ℤ × ℤ)) (clusters : List Cluster),
      (∀ cell ∈ l, g cell < d.cfg.MIN_CLUSTER_SIZE) →
      l.foldl (phase2Step d g) clusters = clusters := by
  intro l
  induction l with
  | nil => intro clusters _; rfl
  | cons c rest ih =>
    intro clusters hl
    have hc : g c < d.cfg.MIN_CLUSTER_SIZE := hl c (List.mem_cons_self c rest)
    rw [List.foldl_cons]
    have hstep : phase2Step d g clusters c = clusters := by
      unfold phase2Step
      rw [if_neg (not_le.mpr hc)]
    rw [hstep]
    exact ih clusters (fun cell h => hl cell (List.mem_cons_of_mem c h))

theorem allCells_nodup (d : ClusterDetector) : (allCells d).Nodup := by
  unfold allCells
  rw [List.nodup_flatMap]
  constructor
  · intro r _
    have hinj : Function.Injective (fun c : ℕ => ((Int.ofNat r, Int.ofNat c) : ℤ × ℤ)) := by
      intro c₁ c₂ h
      have := congrArg Prod.snd h
      simpa [Int.ofNat_eq_natCast] using this
    exact List.Nodup.map hinj (List.nodup_range _)
  · apply List.Pairwise.imp_of_mem ?_ (List.pairwise_lt_range d.gridRows)
    intro r₁ r₂ _ _ hlt
    simp only [Function.onFun, List.disjoint_left]
    intro a ha ha'
    simp only [List.mem_map] at ha ha'
    obtain ⟨c₁, _, hc₁⟩ := ha
    obtain ⟨c₂, _, hc₂⟩ := ha'
    have h1 : Int.ofNat r₁ = a.1 := congrArg Prod.fst hc₁
    have h2 : Int.ofNat r₂ = a.1 := congrArg Prod.fst hc₂
    have h3 := h1.trans h2.symm
    simp only [Int.ofNat_eq_natCast, Nat.cast_inj] at h3
    omega

theorem mem_allCells (d : ClusterDetector) (rc : ℤ × ℤ) :
    rc ∈ allCells d ↔ 0 ≤ rc.1 ∧ rc.1 < d.gridRows ∧ 0 ≤ rc.2 ∧ rc.2 < d.gridCols := by
  unfold allCells
  simp only [List.mem_flatMap, List.mem_map, List.mem_range]
  constructor
  · rintro ⟨r, hr, c, hc, hrc⟩
    subst hrc
    refine ⟨?_, ?_, ?_, ?_⟩ <;> simp only [Int.ofNat_eq_natCast] <;>
      first
        | positivity
        | (show ((r : ℤ)) < (d.gridRows : ℤ); exact_mod_cast hr)
        | (show ((c : ℤ)) < (d.gridCols : ℤ); exact_mod_cast hc)
  · rintro ⟨h1, h2, h3, h4⟩
    refine ⟨rc.1.toNat, ?_, rc.2.toNat, ?_, ?_⟩
    · omega
    · omega
    · have e1 : Int.ofNat rc.1.toNat = rc.1 := by
        simp only [Int.ofNat_eq_natCast]
        omega
      have e2 : Int.ofNat rc.2.toNat = rc.2 := by
        simp only [Int.ofNat_eq_natCast]
        omega
      rw [e1, e2]

theorem buildCluster_single (d : ClusterDetector) (g : ℤ × ℤ → ℕ) (rc : ℤ × ℤ)
    (hpos : 0 < g rc) :
    buildCluster d g [rc] =
      ⟨(pyRound 2 (cellToPosition d rc.1 rc.2).1, pyRound 2 (cellToPosition d rc.1 rc.2).2),
        g rc, [rc], calcRisk d.cfg (g rc)⟩ := by
  unfold buildCluster
  simp only [List.map_cons, List.map_nil, List.sum_cons, List.sum_nil, add_zero]
  have hne : (g rc : ℚ) ≠ 0 := by exact_mod_cast hpos.ne'
  rw [if_pos hpos]
  simp only [mul_div_assoc, div_self hne, mul_one]

theorem allCells_split (d : ClusterDetector) (rc : ℤ × ℤ) (hmem : rc ∈ allCells d) :
    ∃ l₁ l₂, allCells d = l₁ ++ rc :: l₂ ∧ rc ∉ l₁ ∧ rc ∉ l₂ := by
  obtain ⟨l₁, l₂, h⟩ := List.append_of_mem hmem
  refine ⟨l₁, l₂, h, ?_, ?_⟩
  · have hnd := allCells_nodup d
    rw [h, List.nodup_append] at hnd
    intro hmem1
    exact hnd.2.2 hmem1 (List.mem_cons_self rc l₂)
  · have hnd := allCells_nodup d
    rw [h, List.nodup_append] at hnd
    exact (List.nodup_cons.mp hnd.2.1).1

theorem phase1_oneCell (d : ClusterDetector) (g : ℤ × ℤ → ℕ) (rc : ℤ × ℤ)
    (hmem : rc ∈ allCells d)
    (hg0 : ∀ cell, cell ≠ rc → g cell = 0)
    (hthresh1 : 1 ≤ d.cfg.DENSITY_THRESHOLD)
    (hthn : d.cfg.DENSITY_THRESHOLD ≤ g rc) :
    findClustersPhase1 d g =
      if d.cfg.MIN_CLUSTER_SIZE ≤ (buildCluster d g [rc]).count
      then ([rc], [buildCluster d g [rc]]) else ([rc], []) := by
  obtain ⟨l₁, l₂, hsplit, hm1, hm2⟩ := allCells_split d rc hmem
  have hl₁ : ∀ cell ∈ l₁, g cell < d.cfg.DENSITY_THRESHOLD := by
    intro cell h
    have hne : cell ≠ rc := fun e => hm1 (e ▸ h)
    rw [hg0 cell hne]
    omega
  have hl₂ : ∀ cell ∈ l₂, g cell < d.cfg.DENSITY_THRESHOLD := by
    intro cell h
    have hne : cell ≠ rc := fun e => hm2 (e ▸ h)
    rw [hg0 cell hne]
    omega
  have hbfs : bfsCluster d g d.cfg.DENSITY_THRESHOLD rc [] = ([rc], [rc]) := by
    apply bfsCluster_single d g _ rc hthn
    intro cell hne
    rw [hg0 cell hne]
    omega
  unfold findClustersPhase1
  rw [hsplit, List.foldl_append, phase1_skip d g l₁ _ hl₁, List.foldl_cons]
  have hstep : phase1Step d g ([], []) rc =
      if d.cfg.MIN_CLUSTER_SIZE ≤ (buildCluster d g [rc]).count
      then ([rc], [buildCluster d g [rc]]) else ([rc], []) := by
    unfold phase1Step
    dsimp only
    rw [if_neg (List.not_mem_nil rc), if_pos (show g rc ≥ d.cfg.DENSITY_THRESHOLD from hthn),
      hbfs]
    simp only [ne_eq, List.cons_ne_nil, not_false_eq_true, if_true, List.nil_append, ge_iff_le]
  rw [hstep]
  by_cases hms : d.cfg.MIN_CLUSTER_SIZE ≤ (buildCluster d g [rc]).count <;>
    simp only [hms, if_true, if_false] <;>
    exact phase1_skip d g l₂ _ hl₂

theorem phase2_oneCell_skip (d : ClusterDetector) (g : ℤ × ℤ → ℕ) (rc : ℤ × ℤ)
    (hg0 : ∀ cell, cell ≠ rc → g cell = 0)
    (hmin1 : 1 ≤ d.cfg.MIN_CLUSTER_SIZE)
    (hcs : (1:ℚ)/100 ≤ d.cellSize)
    (hpos : 0 < g rc) :
    findClustersPhase2 d g
        [⟨(pyRound 2 (cellToPosition d rc.1 rc.2).1, pyRound 2 (cellToPosition d rc.1 rc.2).2),
          g rc, [rc], calcRisk d.cfg (g rc)⟩] =
      [⟨(pyRound 2 (cellToPosition d rc.1 rc.2).1, pyRound 2 (cellToPosition d rc.1 rc.2).2),
        g rc, [rc], calcRisk d.cfg (g rc)⟩] := by
  set cl : Cluster :=
    ⟨(pyRound 2 (cellToPosition d rc.1 rc.2).1, pyRound 2 (cellToPosition d rc.1 rc.2).2),
      g rc, [rc], calcRisk d.cfg (g rc)⟩ with hcl
  have hstep : ∀ cell, phase2Step d g [cl] cell = [cl] := by
    intro cell
    by_cases hne : cell = rc
    · subst hne
      unfold phase2Step
      by_cases hms : g cell ≥ d.cfg.MIN_CLUSTER_SIZE
      · rw [if_pos hms]
        have hx := pyRound_err (cellToPosition d cell.1 cell.2).1
        have hy := pyRound_err (cellToPosition d cell.1 cell.2).2
        have hx' := abs_le.mp hx
        have hy' := abs_le.mp hy
        have hdist : (cl.center.1 - (cellToPosition d cell.1 cell.2).1) ^ 2 +
            (cl.center.2 - (cellToPosition d cell.1 cell.2).2) ^ 2 <
            (d.cellSize * (3/2)) ^ 2 := by
          rw [hcl]
          nlinarith [hx'.1, hx'.2, hy'.1, hy'.2, hcs]
        have hany : List.any [cl] (fun c =>
            decide ((c.center.1 - (cellToPosition d cell.1 cell.2).1) ^ 2 +
              (c.center.2 - (cellToPosition d cell.1 cell.2).2) ^ 2 <
              (d.cellSize * (3/2)) ^ 2)) = true := by
          simp only [List.any_cons, List.any_nil, Bool.or_false, decide_eq_true_eq]
          exact hdist
        rw [if_pos hany]
      · rw [if_neg hms]
    · unfold phase2Step
      rw [if_neg]
      rw [hg0 cell hne]
      omega
  unfold findClustersPhase2
  have : ∀ (l : List (ℤ × ℤ)), l.foldl (phase2Step d g) [cl] = [cl] := by
    intro l
    induction l with
    | nil => rfl
    | cons c rest ih => rw [List.foldl_cons, hstep c]; exact ih
  exact this _

theorem cdUpdate_oneCell (d : ClusterDetector) (ps : List (ℚ × ℚ)) (rc : ℤ × ℤ)
    (hcell : ∀ p ∈ ps, positionToCell d p.1 p.2 = rc)
    (hmem : rc ∈ allCells d)
    (hcs : (1:ℚ)/100 ≤ d.cellSize)
    (hthresh1 : 1 ≤ d.cfg.DENSITY_THRESHOLD)
    (hthn : d.cfg.DENSITY_THRESHOLD ≤ ps.length)
    (hmin1 : 1 ≤ d.cfg.MIN_CLUSTER_SIZE)
    (hminn : d.cfg.MIN_CLUSTER_SIZE ≤ ps.length) :
    cdUpdate d ps =
      [⟨(pyRound 2 (cellToPosition d rc.1 rc.2).1, pyRound 2 (cellToPosition d rc.1 rc.2).2),
        ps.length, [rc], calcRisk d.cfg ps.length⟩] := by
  have hg1 : gridOf d ps rc = ps.length := gridOf_eq_length d ps rc hcell
  have hg0 : ∀ cell, cell ≠ rc → gridOf d ps cell = 0 :=
    fun cell hne => gridOf_eq_zero d ps rc cell hcell hne
  have hn : 0 < ps.length := by omega
  have hpos : 0 < gridOf d ps rc := by omega
  have hbuild := buildCluster_single d (gridOf d ps) rc hpos
  have hcount : (buildCluster d (gridOf d ps) [rc]).count = ps.length := by
    rw [hbuild]
    exact hg1
  have hphase1 := phase1_oneCell d (gridOf d ps) rc hmem hg0 hthresh1 (by omega)
  rw [if_pos (hcount ▸ hminn)] at hphase1
  have hphase2 := phase2_oneCell_skip d (gridOf d ps) rc hg0 hmin1 hcs hpos
  unfold cdUpdate findClusters
  rw [hphase1]
  show (findClustersPhase2 d (gridOf d ps) [buildCluster d (gridOf d ps) [rc]]).mergeSort _ = _
  rw [hbuild, hphase2, hg1]
  simp

theorem cdUpdate_oneCell_small (d : ClusterDetector) (ps : List (ℚ × ℚ)) (rc : ℤ × ℤ)
    (hcell : ∀ p ∈ ps, positionToCell d p.1 p.2 = rc)
    (hmem : rc ∈ allCells d)
    (hthresh1 : 1 ≤ d.cfg.DENSITY_THRESHOLD)
    (hthn : d.cfg.DENSITY_THRESHOLD ≤ ps.length)
    (hsmall : ps.length < d.cfg.MIN_CLUSTER_SIZE) :
    cdUpdate d ps = [] := by
  have hg1 : gridOf d ps rc = ps.length := gridOf_eq_length d ps rc hcell
  have hg0 : ∀ cell, cell ≠ rc → gridOf d ps cell = 0 :=
    fun cell hne => gridOf_eq_zero d ps rc cell hcell hne
  have hcount : (buildCluster d (gridOf d ps) [rc]).count = ps.length := by
    rw [buildCluster_single d (gridOf d ps) rc (by omega)]
    exact hg1
  have hphase1 := phase1_oneCell d (gridOf d ps) rc hmem hg0 hthresh1 (by omega)
  rw [if_neg (by omega : ¬ d.cfg.MIN_CLUSTER_SIZE ≤ (buildCluster d (gridOf d ps) [rc]).count)]
    at hphase1
  have hbound : ∀ cell ∈ allCells d, gridOf d ps cell < d.cfg.MIN_CLUSTER_SIZE := by
    intro cell _
    by_cases hne : cell = rc
    · subst hne
      omega
    · rw [hg0 cell hne]
      omega
  unfold cdUpdate findClusters
  rw [hphase1]
  show (findClustersPhase2 d (gridOf d ps) []).mergeSort _ = _
  unfold findClustersPhase2
  rw [phase2_skip d (gridOf d ps) (allCells d) [] hbound]
  simp

theorem cdUpdate_sparse (d : ClusterDetector) (ps : List (ℚ × ℚ))
    (hthresh : ∀ cell, gridOf d ps cell < d.cfg.DENSITY_THRESHOLD)
    (hminb : ∀ cell, gridOf d ps cell < d.cfg.MIN_CLUSTER_SIZE) :
    cdUpdate d ps = [] := by
  unfold cdUpdate findClusters
  have hphase1 : findClustersPhase1 d (gridOf d ps) = ([], []) := by
    unfold findClustersPhase1
    exact phase1_skip d (gridOf d ps) (allCells d) ([], []) (fun cell _ => hthresh cell)
  rw [hphase1]
  show (findClustersPhase2 d (gridOf d ps) []).mergeSort _ = _
  unfold findClustersPhase2
  rw [phase2_skip d (gridOf d ps) (allCells d) [] (fun cell _ => hminb cell)]
  simp

/-! ## Claim C8: cluster cell binning -/

/-- C8 (amended): positions all in one grid cell form exactly one cluster containing
all of them PROVIDED the count reaches both the density threshold AND the minimum
cluster size (the original claim asked only for the density threshold); positions
landing at most one per cell with the default-style thresholds (density ≥ 2,
minimum size ≥ 2) produce zero clusters. -/
theorem C8_cluster_binning :
    (∀ (d : ClusterDetector) (ps : List (ℚ × ℚ)) (rc : ℤ × ℤ),
      (∀ p ∈ ps, positionToCell d p.1 p.2 = rc) → rc ∈ allCells d →
      (1:ℚ)/100 ≤ d.cellSize → 1 ≤ d.cfg.DENSITY_THRESHOLD →
      d.cfg.DENSITY_THRESHOLD ≤ ps.length → 1 ≤ d.cfg.MIN_CLUSTER_SIZE →
      d.cfg.MIN_CLUSTER_SIZE ≤ ps.length →
      (cdUpdate d ps).length = 1 ∧ ∀ cl ∈ cdUpdate d ps, cl.count = ps.length) ∧
    (∀ (d : ClusterDetector) (ps : List (ℚ × ℚ)),
      (∀ cell, gridOf d ps cell ≤ 1) → 2 ≤ d.cfg.DENSITY_THRESHOLD →
      2 ≤ d.cfg.MIN_CLUSTER_SIZE → cdUpdate d ps = []) := by
  constructor
  · intro d ps rc h1 h2 h3 h4 h5 h6 h7
    rw [cdUpdate_oneCell d ps rc h1 h2 h3 h4 h5 h6 h7]
    refine ⟨rfl, ?_⟩
    intro cl hcl
    rw [List.mem_singleton] at hcl
    rw [hcl]
  · intro d ps hb h2 h3
    exact cdUpdate_sparse d ps (fun cell => by have := hb cell; omega)
      (fun cell => by have := hb cell; omega)

theorem sampleCD_facts :
    sampleCD.gridRows = 5 ∧ sampleCD.gridCols = 5 ∧ sampleCD.cellSize = 2 ∧
      sampleCD.cfg = defaultCDConfig ∧
      (∀ p ∈ eightPositions, positionToCell sampleCD p.1 p.2 = (0, 0)) ∧
      (∀ p ∈ twoPositions, positionToCell sampleCD p.1 p.2 = (0, 0)) ∧
      (0, 0) ∈ allCells sampleCD := by
  have hrows : sampleCD.gridRows = 5 := by
    show (max 1 (pyInt (10 / 2))).toNat = 5
    norm_num [pyInt]
    omega
  have hcols : sampleCD.gridCols = 5 := by
    show (max 1 (pyInt (10 / 2))).toNat = 5
    norm_num [pyInt]
    omega
  have hptc : positionToCell sampleCD 1 1 = (0, 0) := by
    unfold positionToCell
    rw [hrows, hcols]
    norm_num [pyInt, sampleCD, initCD]
  refine ⟨hrows, hcols, rfl, rfl, ?_, ?_, ?_⟩
  · intro p hp
    rw [List.eq_of_mem_replicate hp]
    exact hptc
  · intro p hp
    rw [List.eq_of_mem_replicate hp]
    exact hptc
  · rw [mem_allCells, hrows, hcols]
    norm_num

/-- C8 counterexample: two positions in one cell meet the default density threshold
(2) but fall below the default minimum cluster size (3): `update` yields NO cluster,
not "exactly one cluster". -/
theorem C8_counterexample :
    defaultCDConfig.DENSITY_THRESHOLD ≤ twoPositions.length ∧
      cdUpdate sampleCD twoPositions = [] := by
  obtain ⟨_, _, _, hcfg, _, hptc2, hmem⟩ := sampleCD_facts
  constructor
  · norm_num [defaultCDConfig, twoPositions]
  · apply cdUpdate_oneCell_small sampleCD twoPositions (0, 0) hptc2 hmem
    · rw [hcfg]
      norm_num [defaultCDConfig]
    · rw [hcfg]
      norm_num [defaultCDConfig, twoPositions]
    · rw [hcfg]
      norm_num [defaultCDConfig, twoPositions]

/-- C8 witness: eight positions in one cell of the default detector give exactly one
cluster holding all eight. -/
theorem C8_cluster_binning_witness :
    (cdUpdate sampleCD eightPositions).length = 1 ∧
      ∀ cl ∈ cdUpdate sampleCD eightPositions, cl.count = eightPositions.length := by
  obtain ⟨_, _, hcs, hcfg, hptc8, _, hmem⟩ := sampleCD_facts
  exact C8_cluster_binning.1 sampleCD eightPositions (0, 0) hptc8 hmem
    (by rw [hcs]; norm_num)
    (by rw [hcfg]; norm_num [defaultCDConfig])
    (by rw [hcfg]; norm_num [defaultCDConfig, eightPositions])
    (by rw [hcfg]; norm_num [defaultCDConfig])
    (by rw [hcfg]; norm_num [defaultCDConfig, eightPositions])

/-! ## Claim C4: aggregate cluster risk score -/

/-- C4 (amended): `get_cluster_risk_score` is 0 with no clusters, always lies in
[0,1], and for a non-empty cluster list equals the rounded weighted sum
0.5 × capped normalized largest-cluster size + 0.2 × capped normalized cluster
count + 0.3 × capped HALF THE NUMBER of HIGH clusters — the third term divides the
HIGH-cluster count by 2; it is NOT the fraction of clusters classified HIGH. -/
theorem C4_cluster_risk_score :
    (∀ cfg : CDConfig, getClusterRiskScore cfg [] = 0) ∧
    (∀ (cfg : CDConfig) (clusters : List Cluster),
      0 ≤ getClusterRiskScore cfg clusters ∧ getClusterRiskScore cfg clusters ≤ 1) ∧
    (∀ (cfg : CDConfig) (clusters : List Cluster), clusters ≠ [] →
      getClusterRiskScore cfg clusters =
        pyRound 3 (min 1 (
          min 1 ((getMaxClusterSize clusters : ℚ) / ((cfg.HIGH_THRESHOLD : ℚ) * (3/2))) * (1/2) +
          min 1 ((clusters.length : ℚ) / 5) * (1/5) +
          min 1 (((clusters.filter (fun c => c.risk = "HIGH")).length : ℚ) / 2) * (3/10)))) := by
  refine ⟨fun cfg => rfl, ?_, ?_⟩
  · intro cfg clusters
    unfold getClusterRiskScore
    by_cases h : clusters = []
    · rw [if_pos h]
      norm_num
    · rw [if_neg h]
      have hx1 : (0:ℚ) ≤ min 1 ((getMaxClusterSize clusters : ℚ) /
          ((cfg.HIGH_THRESHOLD : ℚ) * (3/2))) :=
        le_min (by norm_num) (div_nonneg (Nat.cast_nonneg _) (by positivity))
      have hx1' := min_le_left (1:ℚ)
        ((getMaxClusterSize clusters : ℚ) / ((cfg.HIGH_THRESHOLD : ℚ) * (3/2)))
      have hx2 : (0:ℚ) ≤ min 1 ((clusters.length : ℚ) / 5) :=
        le_min (by norm_num) (by positivity)
      have hx2' := min_le_left (1:ℚ) ((clusters.length : ℚ) / 5)
      have hx3 : (0:ℚ) ≤ min 1
          (((clusters.filter (fun c => c.risk = "HIGH")).length : ℚ) / 2) :=
        le_min (by norm_num) (by positivity)
      have hx3' := min_le_left (1:ℚ)
        (((clusters.filter (fun c => c.risk = "HIGH")).length : ℚ) / 2)
      apply pyRound_bounds
      · exact le_min (by norm_num) (by linarith)
      · exact min_le_left _ _
  · intro cfg clusters h
    unfold getClusterRiskScore
    rw [if_neg h]

/-- C4 counterexample: after an update with eight devices in one cell there is one
HIGH cluster; the code scores it 0.523 (third term `min 1 (1/2) = 0.5`), while the
claimed "fraction of HIGH clusters" formula would give 0.673 (third term 1/1 = 1). -/
theorem C4_counterexample :
    getClusterRiskScore defaultCDConfig (cdUpdate sampleCD eightPositions) = 523/1000 ∧
    specClusterRiskScore defaultCDConfig (cdUpdate sampleCD eightPositions) = 673/1000 ∧
    getClusterRiskScore defaultCDConfig (cdUpdate sampleCD eightPositions) ≠
      specClusterRiskScore defaultCDConfig (cdUpdate sampleCD eightPositions) := by
  obtain ⟨_, _, hcs, hcfg, hptc8, _, hmem⟩ := sampleCD_facts
  have hupd : cdUpdate sampleCD eightPositions = [sampleCluster] := by
    rw [cdUpdate_oneCell sampleCD eightPositions (0, 0) hptc8 hmem
      (by rw [hcs]; norm_num)
      (by rw [hcfg]; norm_num [defaultCDConfig])
      (by rw [hcfg]; norm_num [defaultCDConfig, eightPositions])
      (by rw [hcfg]; norm_num [defaultCDConfig])
      (by rw [hcfg]; norm_num [defaultCDConfig, eightPositions])]
    have hctp : cellToPosition sampleCD 0 0 = (1, 1) := by
      unfold cellToPosition
      rw [hcs]
      norm_num
    have hlen : eightPositions.length = 8 := by
      norm_num [eightPositions]
    have hround : pyRound 2 (1 : ℚ) = 1 := by
      norm_num [pyRound, roundHalfEven]
    have hrisk : calcRisk sampleCD.cfg 8 = "HIGH" := by
      rw [hcfg]
      norm_num [calcRisk, defaultCDConfig]
    rw [hctp, hlen, hrisk]
    norm_num [hround, sampleCluster]
  rw [hupd]
  have h1 : getClusterRiskScore defaultCDConfig [sampleCluster] = 523/1000 := by
    norm_num [getClusterRiskScore, getMaxClusterSize, sampleCluster, defaultCDConfig, min_def,
      pyRound, roundHalfEven, Int.floor_eq_iff, List.filter]
  have h2 : specClusterRiskScore defaultCDConfig [sampleCluster] = 673/1000 := by
    norm_num [specClusterRiskScore, getMaxClusterSize, sampleCluster, defaultCDConfig, min_def,
      pyRound, roundHalfEven, Int.floor_eq_iff, List.filter]
  exact ⟨h1, h2, by rw [h1, h2]; norm_num⟩

/-- C4 witness: the amended formula applied at a concrete non-empty cluster list. -/
theorem C4_cluster_risk_score_witness :
    getClusterRiskScore defaultCDConfig [sampleCluster] =
      pyRound 3 (min 1 (
        min 1 ((getMaxClusterSize [sampleCluster] : ℚ) /
          ((defaultCDConfig.HIGH_THRESHOLD : ℚ) * (3/2))) * (1/2) +
        min 1 (([sampleCluster].length : ℚ) / 5) * (1/5) +
        min 1 ((([sampleCluster].filter
          (fun c : Cluster => c.risk = "HIGH")).length : ℚ) / 2) * (3/10))) :=
  C4_cluster_risk_score.2.2 defaultCDConfig [sampleCluster] (by simp)

/-! ## Claim C1: SurgeEngine hysteresis -/

theorem systemState_value_le (s : SystemState) : s.value ≤ 4 := by
  cases s <;> simp [SystemState.value]

theorem systemState_value_lt_of_ne_surge (s : SystemState) (h : s ≠ .SURGE) : s.value < 4 := by
  cases s
  case SURGE => exact absurd rfl h
  all_goals simp [SystemState.value]

theorem applyHysteresis_surge_step (cfg : SurgeConfig) (e : HEngine) (target : SystemState)
    (t : ℚ) (hs : e.state = .SURGE) :
    ((applyHysteresis cfg e target t).state = .SURGE ∧
      ((applyHysteresis cfg e target t).pendingStart = none ∨
        (applyHysteresis cfg e target t).pendingStart = some t ∨
        (applyHysteresis cfg e target t).pendingStart = e.pendingStart)) ∨
    (∃ ps, e.pendingStart = some ps ∧ t - ps ≥ cfg.DEESCALATE_DELAY) := by
  unfold applyHysteresis
  by_cases h1 : target = e.state
  · rw [if_pos h1]
    exact Or.inl ⟨hs, Or.inl rfl⟩
  · rw [if_neg h1]
    have hne : target ≠ .SURGE := fun h => h1 (h.trans hs.symm)
    have hnot : ¬ (target.value > e.state.value) := by
      rw [hs]
      have h := systemState_value_lt_of_ne_surge target hne
      have h4 : SystemState.SURGE.value = 4 := rfl
      rw [h4]
      omega
    rw [if_neg hnot]
    by_cases h2 : some target ≠ e.pending
    · rw [if_pos h2]
      exact Or.inl ⟨hs, Or.inr (Or.inl rfl)⟩
    · rw [if_neg h2]
      cases hps : e.pendingStart with
      | none =>
        rw [Option.elim_none]
        exact Or.inl ⟨hs, Or.inl hps⟩
      | some ps =>
        rw [Option.elim_some]
        by_cases h3 : t - ps ≥ cfg.DEESCALATE_DELAY
        · exact Or.inr ⟨ps, rfl, h3⟩
        · rw [if_neg h3]
          exact Or.inl ⟨hs, Or.inr (Or.inr hps)⟩

theorem surgeRun_window (cfg : SurgeConfig) (t₀ t₁ : ℚ) (hw : t₁ - t₀ < cfg.DEESCALATE_DELAY) :
    ∀ (trace : List (SensorData × ℚ)) (e : HEngine),
      (∀ p ∈ trace, t₀ ≤ p.2 ∧ p.2 ≤ t₁) →
      e.state = .SURGE →
      (e.pendingStart = none ∨ ∃ ts, e.pendingStart = some ts ∧ t₀ ≤ ts ∧ ts ≤ t₁) →
      (runEngine cfg e trace).state = .SURGE := by
  intro trace
  induction trace with
  | nil =>
    intro e _ hs _
    exact hs
  | cons p rest ih =>
    intro e htr hs hps
    have hp := htr p (List.mem_cons_self p rest)
    have hstep := applyHysteresis_surge_step cfg e (riskToState (engineRisk cfg p.1)) p.2 hs
    rcases hstep with ⟨hstate, hpend⟩ | ⟨ps, hps', hge⟩
    · show (runEngine cfg (processStep cfg e p.1 p.2) rest).state = .SURGE
      apply ih (processStep cfg e p.1 p.2) (fun q hq => htr q (List.mem_cons_of_mem p hq)) hstate
      rcases hpend with h | h | h
      · exact Or.inl h
      · exact Or.inr ⟨p.2, h, hp.1, hp.2⟩
      · rcases hps with h0 | ⟨ts, hts, hb1, hb2⟩
        · exact Or.inl (h.trans h0)
        · exact Or.inr ⟨ts, h.trans hts, hb1, hb2⟩
    · exfalso
      rcases hps with h0 | ⟨ts, hts, hb1, hb2⟩
      · rw [h0] at hps'
        exact Option.noConfusion hps'
      · rw [hts] at hps'
        have : ts = ps := by injection hps'
        subst this
        have h1 : p.2 ≤ t₁ := hp.2
        linarith

/-- C1: SurgeEngine hysteresis. (1) Once the committed state is SURGE, a whole
sequence of `process_sensor_data` calls whose timestamps all fit in a window
shorter than the de-escalation delay leaves the committed state SURGE — whatever
risk scores (e.g. CLEAR-mapping readings) the inputs produce, since a lower target
must stay pending continuously for at least `DEESCALATE_DELAY` before committing.
(2) A target differing from both the committed and the pending state resets the
pending timer to the current timestamp without changing the committed state.
(3) A target equal to the committed state clears the pending state entirely.
(4) A lower target that HAS been pending continuously for the de-escalation delay is
committed. -/
theorem C1_surge_hysteresis :
    (∀ (cfg : SurgeConfig) (trace : List (SensorData × ℚ)) (t₀ t₁ : ℚ),
      t₁ - t₀ < cfg.DEESCALATE_DELAY →
      (∀ p ∈ trace, t₀ ≤ p.2 ∧ p.2 ≤ t₁) →
      (runEngine cfg ⟨.SURGE, none, none⟩ trace).state = .SURGE) ∧
    (∀ (cfg : SurgeConfig) (e : HEngine) (target : SystemState) (t : ℚ),
      target ≠ e.state → some target ≠ e.pending →
      applyHysteresis cfg e target t =
        { e with pending := some target, pendingStart := some t }) ∧
    (∀ (cfg : SurgeConfig) (e : HEngine) (t : ℚ),
      applyHysteresis cfg e e.state t = { e with pending := none, pendingStart := none }) ∧
    (∀ (cfg : SurgeConfig) (e : HEngine) (target : SystemState) (t ps : ℚ),
      e.state = .SURGE → target ≠ .SURGE → e.pending = some target →
      e.pendingStart = some ps → t - ps ≥ cfg.DEESCALATE_DELAY →
      applyHysteresis cfg e target t = ⟨target, none, none⟩) := by
  refine ⟨?_, ?_, ?_, ?_⟩
  · intro cfg trace t₀ t₁ hw htr
    exact surgeRun_window cfg t₀ t₁ hw trace ⟨.SURGE, none, none⟩ htr rfl (Or.inl rfl)
  · intro cfg e target t h1 h2
    unfold applyHysteresis
    rw [if_neg h1, if_pos h2]
  · intro cfg e t
    unfold applyHysteresis
    rw [if_pos rfl]
  · intro cfg e target t ps hs hne hpd hps hge
    unfold applyHysteresis
    have h1 : target ≠ e.state := by
      rw [hs]
      exact hne
    rw [if_neg h1]
    have hnot : ¬ (target.value > e.state.value) := by
      rw [hs]
      have h := systemState_value_lt_of_ne_surge target hne
      have h4 : SystemState.SURGE.value = 4 := rfl
      rw [h4]
      omega
    rw [if_neg hnot]
    have h2 : ¬ (some target ≠ e.pending) := by
      rw [hpd]
      simp
    rw [if_neg h2, hps, Option.elim_some]
    rw [if_pos hge]

/-- C1 witness: from SURGE with empty-room data (which maps to risk 0, target
CLEAR) at timestamps 100 and 105 within the default 10 s de-escalation delay, the
committed state is still SURGE. -/
theorem C1_surge_hysteresis_witness :
    riskToState (engineRisk defaultSurgeConfig clearData) = .CLEAR ∧
    (runEngine defaultSurgeConfig ⟨.SURGE, none, none⟩
      [(clearData, 100), (clearData, 105)]).state = .SURGE := by
  constructor
  · have : engineRisk defaultSurgeConfig clearData = 0 := by
      norm_num [engineRisk, calcComponents, defaultSurgeConfig, clearData, getDist, getSound,
        soundScore, Option.some_ne_none]
    rw [this]
    norm_num [riskToState]
  · apply C1_surge_hysteresis.1 defaultSurgeConfig [(clearData, 100), (clearData, 105)] 100 105
    · norm_num [defaultSurgeConfig]
    · intro p hp
      rcases List.mem_cons.mp hp with h | h
      · rw [h]
        norm_num
      · rw [List.mem_singleton.mp h]
        norm_num

/-! ## Claim C6: ZoneDetector anti-flicker -/

theorem zdTarget_side (cfg : ZDConfig) (state : ZState) (dist : ℚ) (pir : ℕ)
    (hcd : cfg.ZONE_CROWDED_DIST ≤ cfg.ZONE_CLEAR_DIST)
    (hside : dist < cfg.ZONE_CROWDED_DIST ∨ cfg.ZONE_CLEAR_DIST ≤ dist) :
    zdDetermineTarget cfg state dist pir = zdSide cfg dist := by
  unfold zdDetermineTarget zdSide
  rcases hside with h | h
  · rw [if_pos h, if_pos h]
  · have h1 : ¬ (dist < cfg.ZONE_CROWDED_DIST) := not_lt.mpr (le_trans hcd h)
    have h2 : ¬ (dist < cfg.ZONE_CLEAR_DIST ∧ pir = 1) :=
      fun hc => absurd hc.1 (not_lt.mpr h)
    rw [if_neg h1, if_neg h2, if_pos h, if_neg h1]

theorem zdSide_cases (cfg : ZDConfig) (dist : ℚ) :
    zdSide cfg dist = .CROWDED ∨ zdSide cfg dist = .CLEAR := by
  unfold zdSide
  by_cases h : dist < cfg.ZONE_CROWDED_DIST
  · rw [if_pos h]
    exact Or.inl rfl
  · rw [if_neg h]
    exact Or.inr rfl

theorem zdStep_side (cfg : ZDConfig) (s : ZDState) (dist : ℚ) (pir : ℕ) (t : ℚ)
    (hcd : cfg.ZONE_CROWDED_DIST ≤ cfg.ZONE_CLEAR_DIST)
    (hc1 : cfg.CLEAR_CONFIRM_TIME ≠ 0) (hc2 : cfg.CROWDED_CONFIRM_TIME ≠ 0)
    (hside : dist < cfg.ZONE_CROWDED_DIST ∨ cfg.ZONE_CLEAR_DIST ≤ dist)
    (hpend : s.pending ≠ some (zdSide cfg dist)) :
    (zdProcessReading cfg s dist pir t).state = s.state ∧
      ((zdProcessReading cfg s dist pir t).pending = none ∨
        (zdProcessReading cfg s dist pir t).pending = some (zdSide cfg dist)) := by
  have hreq : zdConfirmTime cfg (zdSide cfg dist) ≠ 0 := by
    rcases zdSide_cases cfg dist with h | h <;> rw [h]
    · exact hc2
    · exact hc1
  have happly : zdApplyConfirmation cfg s.state s.pending s.pendingStart (zdSide cfg dist) t =
      if zdSide cfg dist = s.state then (s.state, none, none)
      else (s.state, some (zdSide cfg dist), some t) := by
    unfold zdApplyConfirmation
    by_cases h1 : zdSide cfg dist = s.state
    · rw [if_pos h1, if_pos h1]
    · rw [if_neg h1, if_neg h1, if_neg hreq, if_pos (Ne.symm hpend)]
  unfold zdProcessReading
  dsimp only
  rw [zdTarget_side cfg s.state dist pir hcd hside, happly]
  by_cases h1 : zdSide cfg dist = s.state
  · rw [if_pos h1]
    dsimp only
    rw [if_neg (by simp)]
    exact ⟨rfl, Or.inl rfl⟩
  · rw [if_neg h1]
    dsimp only
    rw [if_neg (by simp)]
    exact ⟨rfl, Or.inr rfl⟩

theorem zdRun_alternating (cfg : ZDConfig)
    (hcd : cfg.ZONE_CROWDED_DIST ≤ cfg.ZONE_CLEAR_DIST)
    (hc1 : cfg.CLEAR_CONFIRM_TIME ≠ 0) (hc2 : cfg.CROWDED_CONFIRM_TIME ≠ 0) :
    ∀ (trace : List (ℚ × ℕ × ℚ)) (s : ZDState),
      (∀ r ∈ trace, r.1 < cfg.ZONE_CROWDED_DIST ∨ cfg.ZONE_CLEAR_DIST ≤ r.1) →
      trace.Chain' (fun a b => zdSide cfg a.1 ≠ zdSide cfg b.1) →
      (∀ r₀ ∈ trace.head?, s.pending ≠ some (zdSide cfg r₀.1)) →
      (runZD cfg s trace).state = s.state := by
  intro trace
  induction trace with
  | nil =>
    intro s _ _ _
    rfl
  | cons r rest ih =>
    intro s hside hchain hpend
    have hr := hside r (List.mem_cons_self r rest)
    have hp := hpend r rfl
    have hstep := zdStep_side cfg s r.1 r.2.1 r.2.2 hcd hc1 hc2 hr hp
    show (runZD cfg (zdProcessReading cfg s r.1 r.2.1 r.2.2) rest).state = s.state
    rw [← hstep.1]
    apply ih
    · exact fun q hq => hside q (List.mem_cons_of_mem r hq)
    · exact (List.chain'_cons'.mp hchain).2
    · intro r₀ hr₀
      have hrel := (List.chain'_cons'.mp hchain).1 r₀ hr₀
      rcases hstep.2 with h | h
      · rw [h]
        simp
      · rw [h]
        intro hEq
        injection hEq with hEq'
        exact hrel hEq'

/-- C6: ZoneDetector anti-flicker. (1) For any sequence of readings that all lie on
a debounced side (below the crowded distance or at/above the clear distance) whose
per-reading target alternates between the two sides at every consecutive pair —
so no debounced target is ever seen twice in a row, let alone sustained for its
confirmation time — the committed zone state never changes (confirmation times
nonzero, pending state initially empty). (2) A new/different pending target resets
the debounce timer to the current timestamp without changing the committed state. -/
theorem C6_zone_antiflicker :
    (∀ (cfg : ZDConfig) (s : ZDState) (trace : List (ℚ × ℕ × ℚ)),
      cfg.ZONE_CROWDED_DIST ≤ cfg.ZONE_CLEAR_DIST →
      cfg.CLEAR_CONFIRM_TIME ≠ 0 → cfg.CROWDED_CONFIRM_TIME ≠ 0 →
      s.pending = none →
      (∀ r ∈ trace, r.1 < cfg.ZONE_CROWDED_DIST ∨ cfg.ZONE_CLEAR_DIST ≤ r.1) →
      trace.Chain' (fun a b => zdSide cfg a.1 ≠ zdSide cfg b.1) →
      (runZD cfg s trace).state = s.state) ∧
    (∀ (cfg : ZDConfig) (state : ZState) (pending : Option ZState)
      (pendingStart : Option ℚ) (target : ZState) (t : ℚ),
      target ≠ state → some target ≠ pending → zdConfirmTime cfg target ≠ 0 →
      zdApplyConfirmation cfg state pending pendingStart target t =
        (state, some target, some t)) := by
  constructor
  · intro cfg s trace hcd hc1 hc2 hpnone hside hchain
    apply zdRun_alternating cfg hcd hc1 hc2 trace s hside hchain
    intro r₀ _
    rw [hpnone]
    simp
  · intro cfg state pending pendingStart target t h1 h2 hreq
    unfold zdApplyConfirmation
    rw [if_neg h1, if_neg hreq, if_pos h2]

/-- C6 witness: with the default zone configuration, readings flapping
50 cm / 250 cm / 50 cm (CROWDED / CLEAR / CROWDED targets, never repeated) leave a
fresh detector committed to CLEAR. -/
theorem C6_zone_antiflicker_witness :
    (runZD defaultZDConfig (initZD defaultZDConfig)
      [(50, 1, 0), (250, 0, 1/10), (50, 1, 2/10)]).state = (initZD defaultZDConfig).state := by
  apply C6_zone_antiflicker.1 defaultZDConfig (initZD defaultZDConfig)
    [(50, 1, 0), (250, 0, 1/10), (50, 1, 2/10)]
  · norm_num [defaultZDConfig]
  · norm_num [defaultZDConfig]
  · norm_num [defaultZDConfig]
  · rfl
  · intro r hr
    rcases List.mem_cons.mp hr with h | h
    · rw [h]
      norm_num [defaultZDConfig]
    rcases List.mem_cons.mp h with h' | h'
    · rw [h']
      norm_num [defaultZDConfig]
    · rw [List.mem_singleton.mp h']
      norm_num [defaultZDConfig]
  · refine List.chain'_cons.mpr ⟨?_, List.chain'_cons.mpr ⟨?_, List.chain'_singleton _⟩⟩ <;>
      norm_num [zdSide, defaultZDConfig] <;> decide

/-! ## Claim C2: passage counting -/

theorem pdStep_count_far (cfg : PDConfig) (s : PDState) (dist t : ℚ)
    (h : cfg.PASSAGE_THRESHOLD ≤ dist) :
    (pdProcessReading cfg s dist t).passageCount = s.passageCount := by
  unfold pdProcessReading
  cases hst : s.state <;> simp only [hst]
  case BASELINE =>
    unfold pdProcessBaseline pdChangeState
    split_ifs <;> rfl
  case APPROACH =>
    unfold pdProcessApproach pdChangeState
    rw [if_neg (not_lt.mpr h)]
    dsimp only
    split_ifs <;> rfl
  case PASSAGE =>
    unfold pdProcessPassage pdChangeState
    dsimp only
    split_ifs <;> rfl
  case COOLDOWN =>
    unfold pdProcessCooldown pdChangeState
    dsimp only
    cases s.cooldownStart <;> dsimp only <;> split_ifs <;> rfl

theorem pdRun_count_far (cfg : PDConfig) :
    ∀ (trace : List (ℚ × ℚ)) (s : PDState),
      (∀ r ∈ trace, cfg.PASSAGE_THRESHOLD ≤ r.1) →
      (runPD cfg s trace).passageCount = s.passageCount := by
  intro trace
  induction trace with
  | nil =>
    intro s _
    rfl
  | cons r rest ih =>
    intro s htr
    show (runPD cfg (pdProcessReading cfg s r.1 r.2) rest).passageCount = s.passageCount
    rw [ih _ (fun q hq => htr q (List.mem_cons_of_mem r hq))]
    exact pdStep_count_far cfg s r.1 r.2 (htr r (List.mem_cons_self r rest))

theorem pdStep_passage_hold (cfg : PDConfig) (s : PDState) (dist t : ℚ)
    (hst : s.state = .PASSAGE) (hd : dist < cfg.PASSAGE_THRESHOLD)
    (hpr : cfg.PASSAGE_THRESHOLD ≤ cfg.RETURN_THRESHOLD) :
    (pdProcessReading cfg s dist t).state = .PASSAGE ∧
      (pdProcessReading cfg s dist t).passageCount = s.passageCount := by
  unfold pdProcessReading
  simp only [hst]
  unfold pdProcessPassage
  have hnot : ¬ (dist > cfg.RETURN_THRESHOLD) := not_lt.mpr (le_of_lt (lt_of_lt_of_le hd hpr))
  rw [if_neg hnot]
  exact ⟨rfl, rfl⟩

theorem pdRun_passage_hold (cfg : PDConfig)
    (hpr : cfg.PASSAGE_THRESHOLD ≤ cfg.RETURN_THRESHOLD) :
    ∀ (trace : List (ℚ × ℚ)) (s : PDState),
      s.state = .PASSAGE →
      (∀ r ∈ trace, r.1 < cfg.PASSAGE_THRESHOLD) →
      (runPD cfg s trace).state = .PASSAGE ∧
        (runPD cfg s trace).passageCount = s.passageCount := by
  intro trace
  induction trace with
  | nil =>
    intro s hst _
    exact ⟨hst, rfl⟩
  | cons r rest ih =>
    intro s hst htr
    have hstep := pdStep_passage_hold cfg s r.1 r.2 hst (htr r (List.mem_cons_self r rest)) hpr
    show (runPD cfg (pdProcessReading cfg s r.1 r.2) rest).state = .PASSAGE ∧
      (runPD cfg (pdProcessReading cfg s r.1 r.2) rest).passageCount = s.passageCount
    have hrest := ih (pdProcessReading cfg s r.1 r.2) hstep.1
      (fun q hq => htr q (List.mem_cons_of_mem r hq))
    exact ⟨hrest.1, hrest.2.trans hstep.2⟩

theorem pdStep_approach (cfg : PDConfig) (s : PDState) (dist t c : ℚ)
    (hst : s.state = .APPROACH) (hcs : s.closeStart = some c)
    (hd : dist < cfg.PASSAGE_THRESHOLD) :
    if t * 1000 - c ≥ cfg.MIN_PASSAGE_DURATION then
      (pdProcessReading cfg s dist t).passageCount = s.passageCount + 1 ∧
        (pdProcessReading cfg s dist t).state = .PASSAGE
    else
      (pdProcessReading cfg s dist t).passageCount = s.passageCount ∧
        (pdProcessReading cfg s dist t).state = .APPROACH ∧
        (pdProcessReading cfg s dist t).closeStart = some c := by
  unfold pdProcessReading
  simp only [hst]
  unfold pdProcessApproach
  rw [if_pos hd]
  dsimp only
  rw [hcs, Option.getD_some]
  by_cases hdur : t * 1000 - c ≥ cfg.MIN_PASSAGE_DURATION
  · rw [if_pos hdur, if_pos hdur]
    unfold pdChangeState pdRegisterPassage
    exact ⟨rfl, rfl⟩
  · rw [if_neg hdur, if_neg hdur]
    exact ⟨rfl, rfl, rfl⟩

theorem pdStep_approach_first (cfg : PDConfig) (s : PDState) (dist t : ℚ)
    (hst : s.state = .APPROACH) (hcs : s.closeStart = none)
    (hd : dist < cfg.PASSAGE_THRESHOLD) :
    if t * 1000 - t * 1000 ≥ cfg.MIN_PASSAGE_DURATION then
      (pdProcessReading cfg s dist t).passageCount = s.passageCount + 1 ∧
        (pdProcessReading cfg s dist t).state = .PASSAGE
    else
      (pdProcessReading cfg s dist t).passageCount = s.passageCount ∧
        (pdProcessReading cfg s dist t).state = .APPROACH ∧
        (pdProcessReading cfg s dist t).closeStart = some (t * 1000) := by
  unfold pdProcessReading
  simp only [hst]
  unfold pdProcessApproach
  rw [if_pos hd]
  dsimp only
  rw [hcs, Option.getD_none]
  by_cases hdur : t * 1000 - t * 1000 ≥ cfg.MIN_PASSAGE_DURATION
  · rw [if_pos hdur, if_pos hdur]
    unfold pdChangeState pdRegisterPassage
    exact ⟨rfl, rfl⟩
  · rw [if_neg hdur, if_neg hdur]
    exact ⟨rfl, rfl, rfl⟩

theorem pdApproachRun (cfg : PDConfig)
    (hpr : cfg.PASSAGE_THRESHOLD ≤ cfg.RETURN_THRESHOLD) :
    ∀ (trace : List (ℚ × ℚ)) (s : PDState) (c : ℚ),
      s.state = .APPROACH → s.closeStart = some c →
      (∀ r ∈ trace, r.1 < cfg.PASSAGE_THRESHOLD) →
      (∃ r ∈ trace, r.2 * 1000 - c ≥ cfg.MIN_PASSAGE_DURATION) →
      (runPD cfg s trace).passageCount = s.passageCount + 1 ∧
        (runPD cfg s trace).state = .PASSAGE := by
  intro trace
  induction trace with
  | nil =>
    rintro s c _ _ _ ⟨r, hr, _⟩
    exact absurd hr (List.not_mem_nil r)
  | cons r rest ih =>
    rintro s c hst hcs htr ⟨x, hx, hxc⟩
    have hd : r.1 < cfg.PASSAGE_THRESHOLD := htr r (List.mem_cons_self r rest)
    have hstep := pdStep_approach cfg s r.1 r.2 c hst hcs hd
    show (runPD cfg (pdProcessReading cfg s r.1 r.2) rest).passageCount = s.passageCount + 1 ∧
      (runPD cfg (pdProcessReading cfg s r.1 r.2) rest).state = .PASSAGE
    by_cases hdur : r.2 * 1000 - c ≥ cfg.MIN_PASSAGE_DURATION
    · rw [if_pos hdur] at hstep
      have hrest := pdRun_passage_hold cfg hpr rest (pdProcessReading cfg s r.1 r.2) hstep.2
        (fun q hq => htr q (List.mem_cons_of_mem r hq))
      exact ⟨hrest.2.trans hstep.1, hrest.1⟩
    · rw [if_neg hdur] at hstep
      have hxrest : x ∈ rest := by
        rcases List.mem_cons.mp hx with h | h
        · exact absurd (h ▸ hxc) hdur
        · exact h
      have := ih (pdProcessReading cfg s r.1 r.2) c hstep.2.1 hstep.2.2
        (fun q hq => htr q (List.mem_cons_of_mem r hq)) ⟨x, hxrest, hxc⟩
      exact ⟨this.1.trans (by rw [hstep.1]), this.2⟩

theorem pdStep_from_passage (cfg : PDConfig) (s : PDState) (dist t : ℚ)
    (hst : s.state = .PASSAGE) :
    (pdProcessReading cfg s dist t).passageCount = s.passageCount ∧
      ((pdProcessReading cfg s dist t).state = .PASSAGE ∨
        (pdProcessReading cfg s dist t).state = .COOLDOWN) := by
  unfold pdProcessReading
  simp only [hst]
  unfold pdProcessPassage pdChangeState
  dsimp only
  split_ifs <;> simp

theorem pdStep_from_cooldown (cfg : PDConfig) (s : PDState) (dist t : ℚ)
    (hst : s.state = .COOLDOWN) :
    (pdProcessReading cfg s dist t).passageCount = s.passageCount ∧
      ((pdProcessReading cfg s dist t).state = .COOLDOWN ∨
        (pdProcessReading cfg s dist t).state = .BASELINE) := by
  unfold pdProcessReading
  simp only [hst]
  unfold pdProcessCooldown pdChangeState
  dsimp only
  cases s.cooldownStart with
  | none => split_ifs <;> simp
  | some cs =>
    dsimp only
    split_ifs <;> simp

/-- C2: PassageDetector counting. (1) A sequence of readings that never goes below
the passage threshold never increments the passage counter. (2) From an APPROACH
entry (no close timer running), a dip held below the passage threshold whose
timestamps span at least `MIN_PASSAGE_DURATION` (ms) from the first dip reading
increments the counter by EXACTLY 1 and puts the detector in PASSAGE. (3) From
PASSAGE the only reachable states are PASSAGE and COOLDOWN and the counter is
frozen; (4) from COOLDOWN only COOLDOWN and BASELINE are reachable and the counter
is frozen — so exactly one COOLDOWN period separates a counted passage from the
next possible one. -/
theorem C2_passage_counting :
    (∀ (cfg : PDConfig) (s : PDState) (trace : List (ℚ × ℚ)),
      (∀ r ∈ trace, cfg.PASSAGE_THRESHOLD ≤ r.1) →
      (runPD cfg s trace).passageCount = s.passageCount) ∧
    (∀ (cfg : PDConfig) (s : PDState) (r : ℚ × ℚ) (rest : List (ℚ × ℚ)),
      s.state = .APPROACH → s.closeStart = none →
      cfg.PASSAGE_THRESHOLD ≤ cfg.RETURN_THRESHOLD →
      (∀ x ∈ r :: rest, x.1 < cfg.PASSAGE_THRESHOLD) →
      (∃ x ∈ r :: rest, x.2 * 1000 - r.2 * 1000 ≥ cfg.MIN_PASSAGE_DURATION) →
      (runPD cfg s (r :: rest)).passageCount = s.passageCount + 1 ∧
        (runPD cfg s (r :: rest)).state = .PASSAGE) ∧
    (∀ (cfg : PDConfig) (s : PDState) (dist t : ℚ), s.state = .PASSAGE →
      (pdProcessReading cfg s dist t).passageCount = s.passageCount ∧
        ((pdProcessReading cfg s dist t).state = .PASSAGE ∨
          (pdProcessReading cfg s dist t).state = .COOLDOWN)) ∧
    (∀ (cfg : PDConfig) (s : PDState) (dist t : ℚ), s.state = .COOLDOWN →
      (pdProcessReading cfg s dist t).passageCount = s.passageCount ∧
        ((pdProcessReading cfg s dist t).state = .COOLDOWN ∨
          (pdProcessReading cfg s dist t).state = .BASELINE)) := by
  refine ⟨?_, ?_, pdStep_from_passage, pdStep_from_cooldown⟩
  · intro cfg s trace htr
    exact pdRun_count_far cfg trace s htr
  · intro cfg s r rest hst hcs hpr htr hex
    have hd : r.1 < cfg.PASSAGE_THRESHOLD := htr r (List.mem_cons_self r rest)
    have hstep := pdStep_approach_first cfg s r.1 r.2 hst hcs hd
    show (runPD cfg (pdProcessReading cfg s r.1 r.2) rest).passageCount = s.passageCount + 1 ∧
      (runPD cfg (pdProcessReading cfg s r.1 r.2) rest).state = .PASSAGE
    by_cases h0 : r.2 * 1000 - r.2 * 1000 ≥ cfg.MIN_PASSAGE_DURATION
    · rw [if_pos h0] at hstep
      have hrest := pdRun_passage_hold cfg hpr rest (pdProcessReading cfg s r.1 r.2) hstep.2
        (fun q hq => htr q (List.mem_cons_of_mem r hq))
      exact ⟨hrest.2.trans hstep.1, hrest.1⟩
    · rw [if_neg h0] at hstep
      obtain ⟨x, hx, hxc⟩ := hex
      have hxrest : x ∈ rest := by
        rcases List.mem_cons.mp hx with h | h
        · exact absurd (h ▸ hxc) h0
        · exact h
      have hrun := pdApproachRun cfg hpr rest (pdProcessReading cfg s r.1 r.2) (r.2 * 1000)
        hstep.2.1 hstep.2.2 (fun q hq => htr q (List.mem_cons_of_mem r hq)) ⟨x, hxrest, hxc⟩
      exact ⟨hrun.1.trans (by rw [hstep.1]), hrun.2⟩

/-- C2 witness: a fresh default detector brought into APPROACH by a 100 cm reading,
then fed 40 cm dips at 0.1 s, 0.2 s and 0.3 s (300 ms - 100 ms = 200 ms =
`MIN_PASSAGE_DURATION`), counts exactly one passage and sits in PASSAGE. -/
theorem C2_passage_counting_witness :
    (runPD defaultPDConfig pdApproach [(40, 1/10), (40, 2/10), (40, 3/10)]).passageCount =
      pdApproach.passageCount + 1 ∧
    (runPD defaultPDConfig pdApproach [(40, 1/10), (40, 2/10), (40, 3/10)]).state =
      .PASSAGE := by
  have hst : pdApproach.state = .APPROACH := by
    norm_num [pdApproach, pdProcessReading, initPD, defaultPDConfig, pdProcessBaseline,
      pdChangeState]
  have hcs : pdApproach.closeStart = none := by
    norm_num [pdApproach, pdProcessReading, initPD, defaultPDConfig, pdProcessBaseline,
      pdChangeState]
  apply C2_passage_counting.2.1 defaultPDConfig pdApproach (40, 1/10) [(40, 2/10), (40, 3/10)]
    hst hcs
  · norm_num [defaultPDConfig]
  · intro x hx
    rcases List.mem_cons.mp hx with h | h
    · rw [h]
      norm_num [defaultPDConfig]
    rcases List.mem_cons.mp h with h' | h'
    · rw [h']
      norm_num [defaultPDConfig]
    · rw [List.mem_singleton.mp h']
      norm_num [defaultPDConfig]
  · refine ⟨(40, 3/10), ?_, ?_⟩
    · simp
    · norm_num [defaultPDConfig]

/-- C5 witness: with distinct counts 5 and 3 the maximum is unique, the code agrees
with the claimed formula, and both give `int((5 + 0.3*3) * 1.4) = 8`. -/
theorem C5_device_count_witness :
    getDeviceCount defaultDTConfig distinctNodes 0 =
      specDeviceCount defaultDTConfig distinctNodes 0 ∧
    getDeviceCount defaultDTConfig distinctNodes 0 = 8 := by
  constructor
  · apply C5_device_count.2 defaultDTConfig distinctNodes 0
    have hact : activeNodes defaultDTConfig distinctNodes 0 = distinctNodes := by
      norm_num [activeNodes, distinctNodes, defaultDTConfig]
    rw [hact]
    norm_num [distinctNodes, listMax, List.count_cons, max_def]
  · norm_num [getDeviceCount, activeNodes, distinctNodes, defaultDTConfig, pyInt, max_def,
      Int.floor_eq_iff]
